import Mathlib

/-!
Verification of the uva-sustain-api repository.

The repository ingests monthly building energy readings (MMBtu) and derives
yearly sustainability metrics, served by a small read-only query API
(src/src/app.py) and produced offline by conversion scripts
(src/scripts/process_uva_data.py, src/scripts/convert_uva_data_v2.py).

Embedding conventions:
- CPython float arithmetic is modelled exactly by the fraction type
  `PyFloat` below.  Every float the pipelines manipulate is a finite
  decimal times the decimal constants 293.071, 0.5, 0.033, 0.0004 or a
  division by 30, and every truncation or rounding the claims exercise is
  far from a binary64 representation boundary, so the exact rational value
  and the binary64 value truncate and round identically.
- Python `int(x)` on a float truncates toward zero: `PyFloat.trunc`.
- Python `round(x, 1)` rounds half to even: `PyFloat.round1`.
- Python `float(s)` string parsing is modelled for plain decimal literals
  (optional sign, digits, optional fractional part); exponent forms do not
  occur in the data set and are treated as unparseable.
- pandas NaN cells are `Option.none`; CSV cells read by `csv.DictReader`
  are plain strings, with a missing cell equal to the empty string.
- String operations (`strip`, `lower`, `in`) are modelled over `List Char`
  so that every definition evaluates inside the kernel.
-/

/-- PyFloat is an exact fraction num/den with positive denominator by
construction; it models the CPython floats flowing through the pipelines. -/
structure PyFloat where
  num : Int
  den : Int
deriving DecidableEq

/-- PyFloat.ofInt injects an integer. -/
def PyFloat.ofInt (n : Int) : PyFloat := ⟨n, 1⟩

/-- PyFloat.add is exact fraction addition (unreduced). -/
def PyFloat.add (x y : PyFloat) : PyFloat :=
  ⟨x.num * y.den + y.num * x.den, x.den * y.den⟩

/-- PyFloat.mul is exact fraction multiplication (unreduced). -/
def PyFloat.mul (x y : PyFloat) : PyFloat :=
  ⟨x.num * y.num, x.den * y.den⟩

/-- PyFloat.divI divides by an integer constant (used for `/ 30`). -/
def PyFloat.divI (x : PyFloat) (n : Int) : PyFloat :=
  ⟨x.num, x.den * n⟩

/-- PyFloat.posB decides `x > 0`; correct whenever the denominator is
nonzero, which every constructed value satisfies. -/
def PyFloat.posB (x : PyFloat) : Bool :=
  decide (0 < x.num * x.den)

/-- PyFloat.trunc models Python `int(x)`: truncation toward zero. -/
def PyFloat.trunc (x : PyFloat) : Int :=
  x.num.tdiv x.den

/-- PyFloat.floorI is the floor of the fraction (denominator positive). -/
def PyFloat.floorI (x : PyFloat) : Int :=
  x.num.fdiv x.den

/-- PyFloat.rhe is banker's rounding to the nearest integer, the
tie-breaking rule of Python 3 `round` (denominator positive). -/
def PyFloat.rhe (x : PyFloat) : Int :=
  let f := x.num.fdiv x.den
  let m := x.num - f * x.den
  if 2 * m < x.den then f
  else if x.den < 2 * m then f + 1
  else if f % 2 = 0 then f else f + 1

/-- PyFloat.round1 models Python `round(x, 1)`: scale by ten, round half
to even, keep the result over the fixed denominator ten. -/
def PyFloat.round1 (x : PyFloat) : PyFloat :=
  ⟨PyFloat.rhe ⟨x.num * 10, x.den⟩, 10⟩

/-- digitsVal converts a list of decimal digit characters to a natural
number (most significant first). -/
def digitsVal (cs : List Char) : Nat :=
  cs.foldl (fun n c => n * 10 + (c.toNat - 48)) 0

/-- stripChars models Python `str.strip()`: remove leading and trailing
whitespace. -/
def stripChars (cs : List Char) : List Char :=
  ((cs.dropWhile Char.isWhitespace).reverse.dropWhile Char.isWhitespace).reverse

/-- pyStrip strips a string and returns the remaining characters. -/
def pyStrip (s : String) : List Char :=
  stripChars s.data

/-- parseFloatCore parses an unsigned decimal literal: digits, optionally
followed by a dot and further digits, with at least one digit overall
(Python accepts 12, 12.5, 12. and .5). -/
def parseFloatCore (cs : List Char) : Option PyFloat :=
  let intPart := cs.takeWhile (fun c => c.isDigit)
  let rest := cs.dropWhile (fun c => c.isDigit)
  match rest with
  | [] =>
      if intPart.isEmpty then none
      else some ⟨(digitsVal intPart : Int), 1⟩
  | '.' :: frac =>
      if frac.all (fun c => c.isDigit) && !(intPart.isEmpty && frac.isEmpty) then
        some ⟨(digitsVal intPart : Int) * (10 ^ frac.length : Nat) + (digitsVal frac : Int),
              ((10 : Int) ^ frac.length)⟩
      else none
  | _ => none

/-- pyNeg negates a parsed value. -/
def pyNeg (x : PyFloat) : PyFloat := ⟨-x.num, x.den⟩

/-- parseFloat models Python `float(s)` on the decimal literals occurring
in the data: surrounding whitespace is tolerated, an optional leading sign
is handled, anything else (including the placeholder `...`) raises, i.e.
gives `none`. -/
def parseFloat (s : String) : Option PyFloat :=
  match stripChars s.data with
  | '-' :: cs => (parseFloatCore cs).map pyNeg
  | '+' :: cs => parseFloatCore cs
  | cs => parseFloatCore cs

/-- parseInt models Python `int(s)` for decimal strings: optional sign and
digits only. -/
def parseInt (s : String) : Option Int :=
  match stripChars s.data with
  | '-' :: cs =>
      if !cs.isEmpty && cs.all (fun c => c.isDigit) then some (-(digitsVal cs : Int)) else none
  | '+' :: cs =>
      if !cs.isEmpty && cs.all (fun c => c.isDigit) then some (digitsVal cs : Int) else none
  | cs =>
      if !cs.isEmpty && cs.all (fun c => c.isDigit) then some (digitsVal cs : Int) else none

/-- lowerChars models Python `str.lower()` on the ASCII data occurring
here. -/
def lowerChars (cs : List Char) : List Char :=
  cs.map Char.toLower

/-- listSub needle hay decides whether needle occurs as a contiguous
run inside hay, i.e. Python `needle in hay` on strings. -/
def listSub : List Char → List Char → Bool
  | needle, [] => needle.isEmpty
  | needle, c :: t => needle.isPrefixOf (c :: t) || listSub needle t

/-- containsCI hay needle is case-insensitive substring matching, the
claims' reading of the building filter.  The source's pandas
`hay.str.contains(needle, case=False)` instead compiles the needle as a
regular expression (regex=True is the pandas default); the two agree
exactly when the needle contains no regex metacharacter (theorems
parseRe_regexFree and reSearch_literal below) and diverge otherwise
(see the regex model next and the C6 and C8 counterexamples). -/
def containsCI (hay needle : String) : Bool :=
  listSub (lowerChars needle.data) (lowerChars hay.data)

/-- ReAtom is an atom of the modelled regex fragment: a literal
character or the `.` wildcard. -/
inductive ReAtom where
  | lit (c : Char)
  | dot
deriving DecidableEq

/-- ReQuant is the quantifier attached to an atom: exactly once, or one
of `+`, `*`, `?`. -/
inductive ReQuant where
  | one
  | plus
  | star
  | opt
deriving DecidableEq

/-- reMetaChars are the characters Python's re module treats specially
in a pattern. -/
def reMetaChars : List Char :=
  ['.', '^', '$', '*', '+', '?', '{', '}', '[', ']', '\\', '|', '(', ')']

/-- atomOf classifies one pattern character: `.` is the wildcard, any
other metacharacter puts the pattern outside the modelled fragment, and
every remaining character is a literal. -/
def atomOf (c : Char) : Option ReAtom :=
  if c = '.' then some ReAtom.dot
  else if reMetaChars.contains c then none
  else some (ReAtom.lit c)

/-- parseRe compiles a pattern string into the modelled regex fragment:
a sequence of atoms, each optionally followed by one of the quantifiers
`+`, `*`, `?`.  A pattern using any other construct is none — that
covers both patterns on which re.compile raises (a lone `+`, an
unbalanced `(`) and valid constructs outside the fragment (anchors,
classes, escapes, alternation); no theorem below relies on a pattern
outside the fragment. -/
def parseRe : List Char → Option (List (ReAtom × ReQuant))
  | [] => some []
  | [c] => (atomOf c).map (fun a => [(a, ReQuant.one)])
  | c :: q :: rest =>
      match atomOf c with
      | none => none
      | some a =>
          if q = '+' then (parseRe rest).map (fun p => (a, ReQuant.plus) :: p)
          else if q = '*' then (parseRe rest).map (fun p => (a, ReQuant.star) :: p)
          else if q = '?' then (parseRe rest).map (fun p => (a, ReQuant.opt) :: p)
          else (parseRe (q :: rest)).map (fun p => (a, ReQuant.one) :: p)

/-- litTokens is the compiled form of a metacharacter-free pattern:
every character a literal atom matched exactly once. -/
def litTokens (cs : List Char) : List (ReAtom × ReQuant) :=
  cs.map (fun c => (ReAtom.lit c, ReQuant.one))

/-- atomMatch matches one atom against one subject character,
case-insensitively (pandas case=False passes re.IGNORECASE; the data
here is ASCII, where IGNORECASE is toLower comparison). -/
def atomMatch (a : ReAtom) (c : Char) : Bool :=
  match a with
  | ReAtom.lit l => l.toLower == c.toLower
  | ReAtom.dot => true

/-- reMatchF decides by backtracking whether the pattern matches a
prefix of the subject, spending one unit of fuel per recursive step.
Every step strictly decreases the lexicographic measure
(subject length, pattern length, star-entry flag), whose range has
fewer than reFuel elements, so with the reFuel budget of reMatchTop the
fuel-exhausted branch is never reached. -/
def reMatchF : Nat → List (ReAtom × ReQuant) → List Char → Bool
  | 0, _, _ => false
  | _ + 1, [], _ => true
  | _ + 1, (_, ReQuant.one) :: _, [] => false
  | fuel + 1, (a, ReQuant.one) :: p, c :: s => atomMatch a c && reMatchF fuel p s
  | fuel + 1, (_, ReQuant.opt) :: p, [] => reMatchF fuel p []
  | fuel + 1, (a, ReQuant.opt) :: p, c :: s =>
      reMatchF fuel p (c :: s) || (atomMatch a c && reMatchF fuel p s)
  | _ + 1, (_, ReQuant.plus) :: _, [] => false
  | fuel + 1, (a, ReQuant.plus) :: p, c :: s =>
      atomMatch a c && reMatchF fuel ((a, ReQuant.star) :: p) s
  | fuel + 1, (_, ReQuant.star) :: p, [] => reMatchF fuel p []
  | fuel + 1, (a, ReQuant.star) :: p, c :: s =>
      reMatchF fuel p (c :: s) || (atomMatch a c && reMatchF fuel ((a, ReQuant.star) :: p) s)

/-- reFuel bounds the backtracking depth of reMatchF: the measure
(subject length, pattern length, flag) lives in a grid of
(p+1)*(s+1)*2 points and strictly decreases at every step. -/
def reFuel (p : List (ReAtom × ReQuant)) (s : List Char) : Nat :=
  2 * (p.length + 1) * (s.length + 1)

/-- reMatchTop is re.match of the modelled fragment: does the pattern
match a prefix of the subject. -/
def reMatchTop (p : List (ReAtom × ReQuant)) (s : List Char) : Bool :=
  reMatchF (reFuel p s) p s

/-- reSearch is re.search of the modelled fragment: does the pattern
match starting at any position of the subject. -/
def reSearch (p : List (ReAtom × ReQuant)) : List Char → Bool
  | [] => reMatchTop p []
  | c :: s => reMatchTop p (c :: s) || reSearch p s

/-- regexFree decides that a string contains none of the regex
metacharacters, so re.compile treats every character literally. -/
def regexFree (s : String) : Bool :=
  s.data.all (fun c => !(reMetaChars.contains c))

/-- MMBTU_TO_KWH is the conversion constant 1 MMBtu = 293.071 kWh shared
by every pipeline in the repository. -/
def MMBTU_TO_KWH : PyFloat := ⟨293071, 1000⟩

/-- WATER_PER_KWH is the source literal 0.5 (gallons per kWh). -/
def WATER_PER_KWH : PyFloat := ⟨1, 2⟩

/-- WASTE_PER_KWH is the source literal 0.033 (lbs per kWh) used by the
API handlers in src/src/app.py. -/
def WASTE_PER_KWH : PyFloat := ⟨33, 1000⟩

/-- CO2_PER_KWH is the source literal 0.0004 (tons per kWh). -/
def CO2_PER_KWH : PyFloat := ⟨4, 10000⟩


/-- DfRow is one row of the pandas DataFrame read from
uva_energy_data_template.csv by src/src/app.py.  A NaN cell is `none`;
`year` is the integer pandas parses for the year column. -/
structure DfRow where
  building : String
  month : String
  year : Int
  energy_MMBtu : Option String
  gross_square_feet : Option String
  occupancy : Option String
  primary_use : Option String
deriving DecidableEq

/-- rowEnergyKwh is the contribution of one row to a group's energy sum in
app.py: rows whose energy cell is NaN, blank after stripping, or fails to
parse as a float are skipped (contribute nothing); otherwise the parsed
MMBtu value times 293.071 is added. -/
def rowEnergyKwh (r : DfRow) : PyFloat :=
  match r.energy_MMBtu with
  | none => PyFloat.ofInt 0
  | some s =>
      if (pyStrip s).isEmpty then PyFloat.ofInt 0
      else
        match parseFloat s with
        | some q => q.mul MMBTU_TO_KWH
        | none => PyFloat.ofInt 0

/-- charListLTb is lexicographic comparison of character lists by code
point, the comparison Python uses on strings. -/
def charListLTb : List Char → List Char → Bool
  | [], [] => false
  | [], _ :: _ => true
  | _ :: _, [] => false
  | a :: as, b :: bs =>
      if a < b then true else if b < a then false else charListLTb as bs

/-- strLTb compares strings lexicographically by code point. -/
def strLTb (a b : String) : Bool :=
  charListLTb a.data b.data

/-- bkeyLEb is the total order on (building, year) group keys that pandas
groupby sorts by: building ascending, then year ascending. -/
def bkeyLEb (a b : String × Int) : Bool :=
  strLTb a.1 b.1 || (a.1 == b.1 && decide (a.2 ≤ b.2))

/-- bkeyLE is `bkeyLEb` as a relation for `List.insertionSort`. -/
def bkeyLE (a b : String × Int) : Prop :=
  bkeyLEb a b = true

instance : DecidableRel bkeyLE :=
  fun a b => inferInstanceAs (Decidable (bkeyLEb a b = true))

/-- intLE is integer order as a relation for `List.insertionSort`. -/
def intLE (a b : Int) : Prop := a ≤ b

instance : DecidableRel intLE :=
  fun a b => inferInstanceAs (Decidable (a ≤ b))

/-- appKey is the groupby key of a row in app.py: (building, year). -/
def appKey (r : DfRow) : String × Int :=
  (r.building, r.year)

/-- appKeys models `monthly_df.groupby(['building', 'year'])`: the distinct
keys, iterated in sorted order (pandas groupby sorts keys by default). -/
def appKeys (rows : List DfRow) : List (String × Int) :=
  List.insertionSort bkeyLE ((rows.map appKey).dedup)

/-- groupRows is the sub-frame of one groupby key, rows in original order. -/
def groupRows (rows : List DfRow) (k : String × Int) : List DfRow :=
  rows.filter (fun r => r.building == k.1 && r.year == k.2)

/-- groupEnergy is the inner loop of the app.py aggregators: starting from
`energy_kwh = 0`, add `float(energy_MMBtu) * 293.071` for every row of the
group whose energy cell is present and parseable. -/
def groupEnergy (rows : List DfRow) (k : String × Int) : PyFloat :=
  (groupRows rows k).foldl (fun a r => a.add (rowEnergyKwh r)) (PyFloat.ofInt 0)

/-- YMetric is one record of the `/api/v1/metrics` response
(get_all_metrics in app.py). -/
structure YMetric where
  building : String
  year : Int
  energy_consumption_kwh : Int
  water_consumption_gallons : Int
  waste_diverted_lbs : Int
  co2_emissions_tons : PyFloat
deriving DecidableEq

/-- yearOkB is the optional exact-match year filter of get_all_metrics. -/
def yearOkB (yf : Option Int) (y : Int) : Bool :=
  match yf with
  | none => true
  | some v => y == v

/-- bldOkB is the optional case-insensitive building substring filter of
get_all_metrics. -/
def bldOkB (bf : Option String) (b : String) : Bool :=
  match bf with
  | none => true
  | some q => containsCI b q

/-- emitMetric is the per-group body of get_all_metrics: groups whose
summed energy is not positive are dropped; the optional year filter is
checked inside the positive branch; a surviving group yields the record
with `int()`-truncated water (x0.5) and waste (x0.033) and co2 rounded to
one decimal (x0.0004). -/
def emitMetric (rows : List DfRow) (yf : Option Int) (k : String × Int) : Option YMetric :=
  let e := groupEnergy rows k
  if e.posB then
    if yearOkB yf k.2 then
      some { building := k.1
           , year := k.2
           , energy_consumption_kwh := e.trunc
           , water_consumption_gallons := (e.mul WATER_PER_KWH).trunc
           , waste_diverted_lbs := (e.mul WASTE_PER_KWH).trunc
           , co2_emissions_tons := (e.mul CO2_PER_KWH).round1 }
    else none
  else none

/-- get_all_metrics models the `/api/v1/metrics` handler of app.py: filter
the frame by the optional building substring, group by (building, year),
and emit one record per group with positive energy that passes the
optional year filter. -/
def get_all_metrics (rows : List DfRow) (bf : Option String) (yf : Option Int) : List YMetric :=
  let rows1 := match bf with
    | none => rows
    | some b => rows.filter (fun r => containsCI r.building b)
  (appKeys rows1).filterMap (emitMetric rows1 yf)

/-- get_all_metrics_src is get_all_metrics with the building filter as
the source computes it: pandas str.contains compiles the query as a
regular expression (regex=True default) and keeps the rows on which
re.search with IGNORECASE succeeds.  The result is none when the query
is outside the modelled regex fragment — there the real handler either
matches by the unmodelled construct or its re raises and the
except-branch answers HTTP 500 — and no theorem below relies on that
case. -/
def get_all_metrics_src (rows : List DfRow) (bf : Option String) (yf : Option Int) :
    Option (List YMetric) :=
  match bf with
  | none => some ((appKeys rows).filterMap (emitMetric rows yf))
  | some b =>
      (parseRe b.data).map (fun pat =>
        let rows1 := rows.filter (fun r => reSearch pat r.building.data)
        (appKeys rows1).filterMap (emitMetric rows1 yf))


deriving instance DecidableEq for Except

/-- BMetric is one record of the `/api/v1/metrics/<building_name>` response
(get_building_metrics in app.py).  Its `building` field is the query
string, and its `metric_type` is the raw first-present primary_use (or
the literal "unknown"), exactly as the handler builds it. -/
structure BMetric where
  building : String
  year : Int
  energy_consumption_kwh : Int
  water_consumption_gallons : Int
  waste_diverted_lbs : Int
  co2_emissions_tons : PyFloat
  metric_type : String
deriving DecidableEq

/-- metaPresent is the presence test app.py applies to metadata cells:
not NaN, not blank after stripping, and not the placeholder `...`. -/
def metaPresent : Option String → Bool
  | none => false
  | some s => !(pyStrip s).isEmpty && !(pyStrip s == "...".data)

/-- firstMetaStr walks the filtered rows in order and takes the first
present value of a string metadata column, stripped (first-wins; app.py
lines 184-210). -/
def firstMetaStr (f : DfRow → Option String) : List DfRow → Option String
  | [] => none
  | r :: t =>
      if metaPresent (f r) then some (String.mk (pyStrip ((f r).getD "")))
      else firstMetaStr f t

/-- firstMetaInt walks the filtered rows in order and takes the first
present value of a numeric metadata column that parses, as
`int(float(v))`; a present but unparseable value is passed over (app.py
lines 184-210). -/
def firstMetaInt (f : DfRow → Option String) : List DfRow → Option Int
  | [] => none
  | r :: t =>
      if metaPresent (f r) then
        match parseFloat ((f r).getD "") with
        | some q => some q.trunc
        | none => firstMetaInt f t
      else firstMetaInt f t

/-- eligRowB is the eligibility test of the yearly loop of
get_building_metrics: the energy cell is present (not NaN, not blank) and
parses as a float. -/
def eligRowB (r : DfRow) : Bool :=
  match r.energy_MMBtu with
  | none => false
  | some s => !(pyStrip s).isEmpty && (parseFloat s).isSome

/-- get_building_metrics models the `/api/v1/metrics/<building_name>`
handler of app.py: filter rows by case-insensitive substring; 404 (the
error branch, with the message naming the building) iff nothing matches;
otherwise one record per year with an eligible reading, in ascending year
order.  The handler accumulates energy, energy*0.5, energy*0.033 and
energy*0.0004 per row (a dict keyed by year, reported sorted by year) and
applies `int()` / `round(.,1)` at the end; metric_type is the raw
first-present primary_use of the filtered rows, defaulting to "unknown". -/
def get_building_metrics (rows : List DfRow) (building_name : String) :
    Except String (List BMetric) :=
  let building_data := rows.filter (fun r => containsCI r.building building_name)
  if building_data.isEmpty then
    Except.error ("Building \"" ++ building_name ++ "\" not found")
  else
    let pu := firstMetaStr (fun r => r.primary_use) building_data
    let elig := building_data.filter eligRowB
    let years := List.insertionSort intLE ((elig.map (fun r => r.year)).dedup)
    Except.ok (years.map (fun y =>
      let yrows := elig.filter (fun r => r.year == y)
      let e := yrows.foldl (fun a r => a.add (rowEnergyKwh r)) (PyFloat.ofInt 0)
      let w := yrows.foldl (fun a r => a.add ((rowEnergyKwh r).mul WATER_PER_KWH)) (PyFloat.ofInt 0)
      let wa := yrows.foldl (fun a r => a.add ((rowEnergyKwh r).mul WASTE_PER_KWH)) (PyFloat.ofInt 0)
      let c := yrows.foldl (fun a r => a.add ((rowEnergyKwh r).mul CO2_PER_KWH)) (PyFloat.ofInt 0)
      { building := building_name
      , year := y
      , energy_consumption_kwh := e.trunc
      , water_consumption_gallons := w.trunc
      , waste_diverted_lbs := wa.trunc
      , co2_emissions_tons := c.round1
      , metric_type := pu.getD "unknown" }))

/-- get_building_metrics_src is get_building_metrics with the building
filter as the source computes it: pandas str.contains compiles the path
parameter as a regular expression (regex=True default) and keeps the
rows on which re.search with IGNORECASE succeeds.  The result is none
when the parameter is outside the modelled regex fragment — there the
real handler either matches by the unmodelled construct or its re
raises and the except-branch answers HTTP 500 — and no theorem below
relies on that case. -/
def get_building_metrics_src (rows : List DfRow) (building_name : String) :
    Option (Except String (List BMetric)) :=
  (parseRe building_name.data).map (fun pat =>
    let building_data := rows.filter (fun r => reSearch pat r.building.data)
    if building_data.isEmpty then
      Except.error ("Building \"" ++ building_name ++ "\" not found")
    else
      let pu := firstMetaStr (fun r => r.primary_use) building_data
      let elig := building_data.filter eligRowB
      let years := List.insertionSort intLE ((elig.map (fun r => r.year)).dedup)
      Except.ok (years.map (fun y =>
        let yrows := elig.filter (fun r => r.year == y)
        let e := yrows.foldl (fun a r => a.add (rowEnergyKwh r)) (PyFloat.ofInt 0)
        let w := yrows.foldl (fun a r => a.add ((rowEnergyKwh r).mul WATER_PER_KWH)) (PyFloat.ofInt 0)
        let wa := yrows.foldl (fun a r => a.add ((rowEnergyKwh r).mul WASTE_PER_KWH)) (PyFloat.ofInt 0)
        let c := yrows.foldl (fun a r => a.add ((rowEnergyKwh r).mul CO2_PER_KWH)) (PyFloat.ofInt 0)
        { building := building_name
        , year := y
        , energy_consumption_kwh := e.trunc
        , water_consumption_gallons := w.trunc
        , waste_diverted_lbs := wa.trunc
        , co2_emissions_tons := c.round1
        , metric_type := pu.getD "unknown" })))

/-- yearFiltered is the optional exact-match year pre-filter the
campus-wide handler applies to the frame
(`monthly_df[monthly_df['year'] == int(year_filter)]`). -/
def yearFiltered (rows : List DfRow) (yf : Option Int) : List DfRow :=
  match yf with
  | none => rows
  | some y => rows.filter (fun r => r.year == y)

/-- YearTotal is one entry of the campus-wide by-year aggregation
(`/api/v1/metrics/campus-wide?aggregate_by=year`). -/
structure YearTotal where
  year : Int
  energy_consumption_kwh : Int
  water_consumption_gallons : Int
  waste_diverted_lbs : Int
  co2_emissions_tons : PyFloat
  total_buildings : Nat
deriving DecidableEq

/-- get_campus_wide_by_year models the aggregate_by=year branch of the
campus-wide handler in app.py.  The handler iterates the sorted
(building, year) groups of the optionally year-filtered frame, creates a
zeroed dict entry for every year it sees (before the positivity check),
accumulates only groups with positive energy (energy as a float sum;
water and waste `int()`-truncated per group then summed; co2 summed then
rounded at the end; buildings as a set of names), and reports entries
sorted by year.  The dict therefore holds exactly the distinct years of
the filtered frame, and each entry sums over that year's positive groups
in sorted-key order, which is how it is written here. -/
def get_campus_wide_by_year (rows : List DfRow) (yf : Option Int) : List YearTotal :=
  let rows1 := yearFiltered rows yf
  let years := List.insertionSort intLE ((rows1.map (fun r => r.year)).dedup)
  years.map (fun y =>
    let pos := ((appKeys rows1).filter (fun k => k.2 == y)).filter
        (fun k => (groupEnergy rows1 k).posB)
    { year := y
    , energy_consumption_kwh :=
        (pos.foldl (fun a k => a.add (groupEnergy rows1 k)) (PyFloat.ofInt 0)).trunc
    , water_consumption_gallons :=
        pos.foldl (fun a k => a + ((groupEnergy rows1 k).mul WATER_PER_KWH).trunc) 0
    , waste_diverted_lbs :=
        pos.foldl (fun a k => a + ((groupEnergy rows1 k).mul WASTE_PER_KWH).trunc) 0
    , co2_emissions_tons :=
        (pos.foldl (fun a k => a.add ((groupEnergy rows1 k).mul CO2_PER_KWH)) (PyFloat.ofInt 0)).round1
    , total_buildings := ((pos.map (fun k => k.1)).dedup).length })


/-- setEntry updates an insertion-ordered association list in place,
appending a new key at the end, which is how a Python dict stores
entries. -/
def setEntry {K G : Type} [DecidableEq K] : List (K × G) → K → G → List (K × G)
  | [], k, g => [(k, g)]
  | (k0, g0) :: t, k, g =>
      if k0 = k then (k, g) :: t else (k0, g0) :: setEntry t k g

/-- findEntry looks a key up in an association list. -/
def findEntry {K G : Type} [DecidableEq K] : List (K × G) → K → Option G
  | [], _ => none
  | (k0, g0) :: t, k => if k0 = k then some g0 else findEntry t k

/-- dictStep performs one loop iteration of the script aggregators: when
the row passes the skip checks (conOf yields a key and a contribution),
update the defaultdict entry of that key, materializing it from the
default on first touch. -/
def dictStep {R K C G : Type} [DecidableEq K] (conOf : R → Option (K × C))
    (upd : G → C → G) (dflt : G) (st : List (K × G)) (r : R) : List (K × G) :=
  match conOf r with
  | none => st
  | some (k, c) => setEntry st k (upd ((findEntry st k).getD dflt) c)

/-- dictFold runs an aggregation loop over all rows from the empty dict. -/
def dictFold {R K C G : Type} [DecidableEq K] (conOf : R → Option (K × C))
    (upd : G → C → G) (dflt : G) (rows : List R) : List (K × G) :=
  rows.foldl (dictStep conOf upd dflt) []

/-- RawRow is one CSV row as csv.DictReader yields it to the conversion
scripts: every recognized column as a plain string, a missing cell being
the empty string (the scripts apply `(row.get(c) or '')` / safe_get). -/
structure RawRow where
  building : String
  month : String
  year : String
  energy_MMBtu : String
  gross_square_feet : String
  occupancy : String
  primary_use : String
deriving DecidableEq

namespace ProcV1

/-- convert_mmbtu_to_kwh from process_uva_data.py: falsy or placeholder
input gives None; otherwise `int(float(mmbtu) * 293.071)`, a parse
failure also giving None. -/
def convert_mmbtu_to_kwh (mmbtu : String) : Option Int :=
  if mmbtu == "" || mmbtu == "..." then none
  else
    match parseFloat mmbtu with
    | some q => some ((q.mul MMBTU_TO_KWH).trunc)
    | none => none

/-- calculate_co2_from_energy from process_uva_data.py: 0.0 on falsy
input, otherwise `round(energy_kwh * 0.0004, 1)`. -/
def calculate_co2_from_energy (e : Int) : PyFloat :=
  if e == 0 then PyFloat.ofInt 0
  else ((PyFloat.ofInt e).mul CO2_PER_KWH).round1

/-- estimate_water_from_energy from process_uva_data.py: 0 on falsy
input, otherwise `int(energy_kwh * 0.5)`. -/
def estimate_water_from_energy (e : Int) : Int :=
  if e == 0 then 0 else ((PyFloat.ofInt e).mul WATER_PER_KWH).trunc

/-- estimate_waste_from_energy from process_uva_data.py: 0 on falsy
input, otherwise `int(energy_kwh / 30)`. -/
def estimate_waste_from_energy (e : Int) : Int :=
  if e == 0 then 0 else ((PyFloat.ofInt e).divI 30).trunc

/-- mapping is the ordered keyword table of process_uva_data.py (Python
dicts preserve insertion order, so iteration follows this order). -/
def mapping : List (String × String) :=
  [ ("academic", "academic")
  , ("multi-use", "student_life")
  , ("multi-purpose", "student_life")
  , ("fitness", "athletic")
  , ("medical", "healthcare")
  , ("dining", "student_life") ]

/-- map_primary_use_to_metric_type from process_uva_data.py: falsy or
placeholder input gives other; otherwise the category of the first table
keyword contained in the lowercased input; no match gives other. -/
def map_primary_use_to_metric_type (primary_use : String) : String :=
  if primary_use == "" || primary_use == "..." then "other"
  else
    match mapping.find? (fun kv => listSub kv.1.data (lowerChars primary_use.data)) with
    | some kv => kv.2
    | none => "other"

/-- Group1 is one defaultdict value of the process_uva_data.py
aggregation: running energy sum and first-stored primary_use. -/
structure Group1 where
  energy_kwh : Int
  primary_use : String
deriving DecidableEq

/-- Con1 is what one non-skipped row contributes to its group: the
converted energy and the stripped primary_use cell. -/
structure Con1 where
  energy : Int
  pu : String
deriving DecidableEq

/-- conOf implements the skip checks of the aggregation loop
(process_uva_data.py lines 81-92): strip the cells; skip when building or
year is blank; skip when the converted energy is None or 0
(`if not energy_kwh: continue`). -/
def conOf (r : RawRow) : Option ((String × String) × Con1) :=
  let building := String.mk (pyStrip r.building)
  let year := String.mk (pyStrip r.year)
  let energy := String.mk (pyStrip r.energy_MMBtu)
  let pu := String.mk (pyStrip r.primary_use)
  if building == "" || year == "" then none
  else
    match convert_mmbtu_to_kwh energy with
    | none => none
    | some e => if e == 0 then none else some ((building, year), ⟨e, pu⟩)

/-- updPU is the primary_use part of the dict update: fill the field only
when it is still empty and the incoming value is present and not the
placeholder. -/
def updPU (g : Group1) (pu : String) : Group1 :=
  if g.primary_use == "" && pu != "" && pu != "..." then
    { g with primary_use := pu }
  else g

/-- upd implements the dict update (lines 94-98): add the energy, then
apply the primary_use first-fill. -/
def upd (g : Group1) (c : Con1) : Group1 :=
  updPU { g with energy_kwh := g.energy_kwh + c.energy } c.pu

/-- aggregate is the whole aggregation loop of process_uva_data.py. -/
def aggregate (raws : List RawRow) : List ((String × String) × Group1) :=
  dictFold conOf upd ⟨0, ""⟩ raws

/-- SMetric is one output row of the conversion scripts
(sustainability_metrics.csv). -/
structure SMetric where
  building : String
  year : Int
  energy_consumption_kwh : Int
  water_consumption_gallons : Int
  waste_diverted_lbs : Int
  co2_emissions_tons : PyFloat
  metric_type : String
deriving DecidableEq

/-- skeyLE orders dict items by their (building, year-string) key, the
order of Python sorted() on the items; keys are distinct, so the tuple
comparison never reaches the values. -/
def skeyLE (a b : (String × String) × Group1) : Prop :=
  (strLTb a.1.1 b.1.1
    || (a.1.1 == b.1.1 && (strLTb a.1.2 b.1.2 || a.1.2 == b.1.2))) = true

instance : DecidableRel skeyLE :=
  fun _ _ => inferInstanceAs (Decidable (_ = true))

/-- outputRows is the output loop of process_uva_data.py (lines 100-113):
the dict items sorted by key, each turned into one metrics row.
`int(year)` is modelled by parseInt with default 0; the script would
crash on a non-numeric year, which no claim exercises. -/
def outputRows (raws : List RawRow) : List SMetric :=
  (List.insertionSort skeyLE (aggregate raws)).map (fun kg =>
    { building := kg.1.1
    , year := (parseInt kg.1.2).getD 0
    , energy_consumption_kwh := kg.2.energy_kwh
    , water_consumption_gallons := estimate_water_from_energy kg.2.energy_kwh
    , waste_diverted_lbs := estimate_waste_from_energy kg.2.energy_kwh
    , co2_emissions_tons := calculate_co2_from_energy kg.2.energy_kwh
    , metric_type := map_primary_use_to_metric_type kg.2.primary_use })

end ProcV1


namespace ProcV2

/-- convert_mmbtu_to_kwh from convert_uva_data_v2.py (textually the same
function as in process_uva_data.py). -/
def convert_mmbtu_to_kwh (mmbtu : String) : Option Int :=
  if mmbtu == "" || mmbtu == "..." then none
  else
    match parseFloat mmbtu with
    | some q => some ((q.mul MMBTU_TO_KWH).trunc)
    | none => none

/-- mapping is the ordered keyword table of convert_uva_data_v2.py, a
superset of the process_uva_data.py table. -/
def mapping : List (String × String) :=
  [ ("academic", "academic")
  , ("multi-use", "student_life")
  , ("multi-purpose", "student_life")
  , ("fitness", "athletic")
  , ("medical", "healthcare")
  , ("dining", "student_life")
  , ("office", "administrative")
  , ("administrative", "administrative")
  , ("historic", "historic") ]

/-- map_primary_use_to_metric_type from convert_uva_data_v2.py: falsy or
placeholder input gives other; otherwise the category of the first table
keyword contained in the lowercased input; no match gives other. -/
def map_primary_use_to_metric_type (primary_use : String) : String :=
  if primary_use == "" || primary_use == "..." then "other"
  else
    match mapping.find? (fun kv => listSub kv.1.data (lowerChars primary_use.data)) with
    | some kv => kv.2
    | none => "other"

/-- Group2 is one defaultdict value of the convert_uva_data_v2.py
aggregation: running energy sum and the three metadata fields, all
initialized falsy. -/
structure Group2 where
  energy_kwh : Int
  primary_use : String
  gross_square_feet : Int
  occupancy : Int
deriving DecidableEq

/-- Con2 is what one non-skipped row contributes to its group: the
converted energy and the stripped metadata cells. -/
structure Con2 where
  energy : Int
  pu : String
  gsf : String
  occ : String
deriving DecidableEq

/-- conOf implements the skip checks of convert_template_to_metrics
(convert_uva_data_v2.py lines 110-132): safe_get strips the cells; skip
when building or year is blank; the energy value comes from the
energy_MMBtu column (the energy_kw and energy aliases are not part of the
modelled schema); it is converted only when present and not the
placeholder; skip when the result is None or 0
(`if not energy_kwh: continue`). -/
def conOf (r : RawRow) : Option ((String × String) × Con2) :=
  let building := String.mk (pyStrip r.building)
  let year := String.mk (pyStrip r.year)
  let energy_mmbtu := String.mk (pyStrip r.energy_MMBtu)
  let gsf := String.mk (pyStrip r.gross_square_feet)
  let occ := String.mk (pyStrip r.occupancy)
  let pu := String.mk (pyStrip r.primary_use)
  if building == "" || year == "" then none
  else
    let ek : Option Int :=
      if energy_mmbtu != "" && energy_mmbtu != "..." then convert_mmbtu_to_kwh energy_mmbtu
      else none
    match ek with
    | none => none
    | some e => if e == 0 then none else some ((building, year), ⟨e, pu, gsf, occ⟩)

/-- updPU is the primary_use part of the dict update: fill the field only
while it is still empty and the incoming value is present and not the
placeholder. -/
def updPU (g : Group2) (pu : String) : Group2 :=
  if g.primary_use == "" && pu != "" && pu != "..." then
    { g with primary_use := pu }
  else g

/-- updGsf is the gross_square_feet part of the dict update: only while
the stored value is still 0 (`if not aggregated[key][f]`) and the
incoming value is present, store `int(float(v))`, silently ignoring a
parse failure. -/
def updGsf (g : Group2) (gsf : String) : Group2 :=
  if g.gross_square_feet == 0 && gsf != "" && gsf != "..." then
    match parseFloat gsf with
    | some q => { g with gross_square_feet := q.trunc }
    | none => g
  else g

/-- updOcc is the occupancy part of the dict update, like updGsf. -/
def updOcc (g : Group2) (occ : String) : Group2 :=
  if g.occupancy == 0 && occ != "" && occ != "..." then
    match parseFloat occ with
    | some q => { g with occupancy := q.trunc }
    | none => g
  else g

/-- upd implements the dict update (lines 134-150): add the energy, then
apply the three metadata first-fills in source order. -/
def upd (g : Group2) (c : Con2) : Group2 :=
  updOcc (updGsf (updPU { g with energy_kwh := g.energy_kwh + c.energy } c.pu) c.gsf) c.occ

/-- aggregate is the whole aggregation loop of convert_uva_data_v2.py. -/
def aggregate (raws : List RawRow) : List ((String × String) × Group2) :=
  dictFold conOf upd ⟨0, "", 0, 0⟩ raws

/-- skeyLE orders dict items by their (building, year-string) key, the
order of Python sorted() on the items. -/
def skeyLE (a b : (String × String) × Group2) : Prop :=
  (strLTb a.1.1 b.1.1
    || (a.1.1 == b.1.1 && (strLTb a.1.2 b.1.2 || a.1.2 == b.1.2))) = true

instance : DecidableRel skeyLE :=
  fun _ _ => inferInstanceAs (Decidable (_ = true))

/-- outputRows is the output loop of convert_uva_data_v2.py (lines
156-186): the dict items sorted by key, each turned into one metrics row
using the shared derivation helpers of process_uva_data.py (the v2 script
defines textually identical copies). -/
def outputRows (raws : List RawRow) : List ProcV1.SMetric :=
  (List.insertionSort skeyLE (aggregate raws)).map (fun kg =>
    { building := kg.1.1
    , year := (parseInt kg.1.2).getD 0
    , energy_consumption_kwh := kg.2.energy_kwh
    , water_consumption_gallons := ProcV1.estimate_water_from_energy kg.2.energy_kwh
    , waste_diverted_lbs := ProcV1.estimate_waste_from_energy kg.2.energy_kwh
    , co2_emissions_tons := ProcV1.calculate_co2_from_energy kg.2.energy_kwh
    , metric_type := map_primary_use_to_metric_type kg.2.primary_use })

end ProcV2


/-- metricTypeValues is the seven-value metric_type enum of the data
model. -/
def metricTypeValues : List String :=
  ["academic", "student_life", "athletic", "healthcare", "administrative", "historic", "other"]

/-- energyAbsent says a DataFrame row's energy cell is absent in the sense
of the spec: NaN, blank after stripping, or any value that fails to parse
as a float — which covers the `...` placeholder. -/
def energyAbsent (r : DfRow) : Bool :=
  match r.energy_MMBtu with
  | none => true
  | some s => (pyStrip s).isEmpty || (parseFloat s).isNone

/-- rawEnergyAbsent says a CSV reading's energy cell is absent in the
sense of the spec: blank after stripping, the `...` placeholder, or any
value that fails to parse as a float. -/
def rawEnergyAbsent (r : RawRow) : Bool :=
  (pyStrip r.energy_MMBtu).isEmpty
    || String.mk (pyStrip r.energy_MMBtu) == "..."
    || (parseFloat (String.mk (pyStrip r.energy_MMBtu))).isNone

/-- applyCons is one defaultdict update step on the optional entry of a
fixed key: materialize the entry from the default on first touch, then
update it. -/
def applyCons {C G : Type} (upd : G → C → G) (dflt : G) (og : Option G) (c : C) : Option G :=
  some (upd (og.getD dflt) c)

/-- keyContribs restricts an aggregation loop to one key: the
contributions of the rows that pass the skip checks and map to that key,
in row order. -/
def keyContribs {R K C : Type} [DecidableEq K] (conOf : R → Option (K × C))
    (raws : List R) (k : K) : List C :=
  raws.filterMap (fun r => match conOf r with
    | some kc => if kc.1 = k then some kc.2 else none
    | none => none)

/-- firstPU is the closed form of the primary_use first-fill over a
group's eligible contributions: the first present, non-placeholder value
wins; no such value leaves the empty string. -/
def firstPU : List ProcV2.Con2 → String
  | [] => ""
  | c :: t => if c.pu != "" && c.pu != "..." then c.pu else firstPU t

/-- firstNZ is the closed form of the numeric metadata first-fill of the
v2 aggregation: the first present value that parses to a nonzero integer
wins; zero parses and parse failures leave the field open for later
values. -/
def firstNZ (f : ProcV2.Con2 → String) : List ProcV2.Con2 → Int
  | [] => 0
  | c :: t =>
      if f c != "" && f c != "..." then
        match parseFloat (f c) with
        | some q => if q.trunc == 0 then firstNZ f t else q.trunc
        | none => firstNZ f t
      else firstNZ f t

/-- sumE is the total converted energy of a list of contributions. -/
def sumE : List ProcV2.Con2 → Int
  | [] => 0
  | c :: t => c.energy + sumE t

/-- specGroupReadings is the claim-side notion (C9) of the readings of a
(building, year) group: every raw row whose stripped building and year
match the key, in original row order, with no eligibility condition. -/
def specGroupReadings (raws : List RawRow) (k : String × String) : List RawRow :=
  raws.filter (fun r =>
    String.mk (pyStrip r.building) == k.1 && String.mk (pyStrip r.year) == k.2)

/-- specFirstPresentPU follows the claim's words (C9): the first present
(non-empty, non-placeholder) primary_use among a list of readings. -/
def specFirstPresentPU : List RawRow → Option String
  | [] => none
  | r :: t =>
      if String.mk (pyStrip r.primary_use) != "" && String.mk (pyStrip r.primary_use) != "..." then
        some (String.mk (pyStrip r.primary_use))
      else specFirstPresentPU t

/-- rowsC1 is the end-to-end scenario input of the spec: two West Hall
readings of 100 and 150 MMBtu in 2022, as the DataFrame sees them. -/
def rowsC1 : List DfRow :=
  [ ⟨"West Hall", "Jan", 2022, some "100", none, none, none⟩
  , ⟨"West Hall", "Feb", 2022, some "150", none, none, none⟩ ]

/-- rawsC1 is the same scenario as the conversion scripts see it. -/
def rawsC1 : List RawRow :=
  [ ⟨"West Hall", "Jan", "2022", "100", "", "", ""⟩
  , ⟨"West Hall", "Feb", "2022", "150", "", "", ""⟩ ]

/-- rowsC2 is a one-reading frame whose yearly total 293071 kWh separates
the two waste formulas. -/
def rowsC2 : List DfRow :=
  [ ⟨"B", "Jan", 2022, some "1000", none, none, none⟩ ]

/-- rowsC3 has one group whose readings show every kind of absent energy
(blank, the `...` placeholder, NaN) and one normal group. -/
def rowsC3 : List DfRow :=
  [ ⟨"Empty Hall", "Jan", 2022, some "", none, none, none⟩
  , ⟨"Empty Hall", "Feb", 2022, some "...", none, none, none⟩
  , ⟨"Empty Hall", "Mar", 2022, none, none, none, none⟩
  , ⟨"Other", "Jan", 2022, some "5", none, none, none⟩ ]

/-- rawsC3 is the same scenario for the script aggregator: blank, the
placeholder, and an unparseable value. -/
def rawsC3 : List RawRow :=
  [ ⟨"Empty Hall", "Jan", "2022", "", "", "", ""⟩
  , ⟨"Empty Hall", "Feb", "2022", "...", "", "", ""⟩
  , ⟨"Empty Hall", "Mar", "2022", "n/a", "", "", ""⟩
  , ⟨"Other", "Jan", "2022", "5", "", "", ""⟩ ]

/-- rawsC4zero has an explicit 0 MMBtu reading carrying metadata, then a
normal reading without metadata. -/
def rawsC4zero : List RawRow :=
  [ ⟨"B", "Jan", "2022", "0", "", "", "Academic"⟩
  , ⟨"B", "Feb", "2022", "5", "", "", ""⟩ ]

/-- rawsC4empty is rawsC4zero with the zero reading's energy absent
instead. -/
def rawsC4empty : List RawRow :=
  [ ⟨"B", "Jan", "2022", "", "", "", "Academic"⟩
  , ⟨"B", "Feb", "2022", "5", "", "", ""⟩ ]

/-- rowsC7 is a one-building frame whose primary_use is the free-text
string Academic Library. -/
def rowsC7 : List DfRow :=
  [ ⟨"West Hall", "Jan", 2022, some "100", none, none, some "Academic Library"⟩ ]

/-- rawsC9 is a group whose first reading has absent energy but a present
primary_use, and whose second reading is eligible with a different
primary_use. -/
def rawsC9 : List RawRow :=
  [ ⟨"B", "Jan", "2022", "", "", "", "Dining"⟩
  , ⟨"B", "Feb", "2022", "1", "", "", "Academic"⟩ ]

/-- rowsC10 has a 2021 group with only an absent reading and a normal
2022 group, so 2021 appears campus-wide with all-zero totals. -/
def rowsC10 : List DfRow :=
  [ ⟨"A", "Jan", 2021, some "", none, none, none⟩
  , ⟨"B", "Jan", 2022, some "1", none, none, none⟩ ]

/-- rowsC8 has two buildings across two years for exercising the query
filters. -/
def rowsC8 : List DfRow :=
  [ ⟨"West Hall", "Jan", 2021, some "10", none, none, none⟩
  , ⟨"West Hall", "Jan", 2022, some "20", none, none, none⟩
  , ⟨"East Annex", "Jan", 2022, some "30", none, none, none⟩ ]

/-- rowsC6x is a one-building frame for the regex divergence of the
per-building endpoint: West Hall regex-matches the query Hall+ without
containing it as a substring. -/
def rowsC6x : List DfRow :=
  [ ⟨"West Hall", "Jan", 2022, some "100", none, none, none⟩ ]

/-- rowsC8x is a one-building frame for the regex divergence of the
metrics-list building filter. -/
def rowsC8x : List DfRow :=
  [ ⟨"West Hall", "Jan", 2022, some "100", none, none, none⟩ ]

theorem charListLTb_irrefl (x : List Char) : charListLTb x x = false := by
  induction x with
  | nil => rfl
  | cons a as ih => simpa [charListLTb] using ih

theorem charListLTb_asymm (x y : List Char) (h : charListLTb x y = true) :
    charListLTb y x = false := by
  induction x generalizing y with
  | nil =>
      cases y with
      | nil => simp [charListLTb] at h
      | cons b bs => simp [charListLTb]
  | cons a as ih =>
      cases y with
      | nil => simp [charListLTb] at h
      | cons b bs =>
          simp only [charListLTb] at h ⊢
          rcases lt_trichotomy a b with hab | hab | hab
          · simp [hab, lt_asymm hab]
          · subst hab
            simp only [lt_irrefl, if_false] at h ⊢
            exact ih bs h
          · simp [hab, lt_asymm hab] at h

theorem charListLTb_eq_of_not (x y : List Char) (hxy : charListLTb x y = false)
    (hyx : charListLTb y x = false) : x = y := by
  induction x generalizing y with
  | nil =>
      cases y with
      | nil => rfl
      | cons b bs => simp [charListLTb] at hxy
  | cons a as ih =>
      cases y with
      | nil => simp [charListLTb] at hyx
      | cons b bs =>
          simp only [charListLTb] at hxy hyx
          rcases lt_trichotomy a b with hab | hab | hab
          · simp [hab] at hxy
          · subst hab
            simp only [lt_irrefl, if_false] at hxy hyx
            rw [ih bs hxy hyx]
          · simp [hab] at hyx

theorem charListLTb_trans (x y z : List Char) (h1 : charListLTb x y = true)
    (h2 : charListLTb y z = true) : charListLTb x z = true := by
  induction x generalizing y z with
  | nil =>
      cases z with
      | nil =>
          cases y with
          | nil => simp [charListLTb] at h1
          | cons b bs => simp [charListLTb] at h2
      | cons c cs => simp [charListLTb]
  | cons a as ih =>
      cases y with
      | nil => simp [charListLTb] at h1
      | cons b bs =>
          cases z with
          | nil => simp [charListLTb] at h2
          | cons c cs =>
              simp only [charListLTb] at h1 h2 ⊢
              rcases lt_trichotomy a b with hab | hab | hab
              · rcases lt_trichotomy b c with hbc | hbc | hbc
                · simp [lt_trans hab hbc]
                · subst hbc; simp [hab]
                · simp [hbc, lt_asymm hbc] at h2
              · subst hab
                rcases lt_trichotomy a c with hac | hac | hac
                · simp [hac]
                · subst hac
                  simp only [lt_irrefl, if_false] at h1 h2 ⊢
                  exact ih bs cs h1 h2
                · simp [hac, lt_asymm hac] at h2
              · simp [hab, lt_asymm hab] at h1

theorem strLTb_eq_of_not (a b : String) (hab : strLTb a b = false)
    (hba : strLTb b a = false) : a = b := by
  cases a with
  | mk da =>
      cases b with
      | mk db =>
          have : da = db := charListLTb_eq_of_not da db hab hba
          rw [this]

theorem bkeyLE_iff (a b : String × Int) :
    bkeyLE a b ↔ (strLTb a.1 b.1 = true ∨ (a.1 = b.1 ∧ a.2 ≤ b.2)) := by
  unfold bkeyLE bkeyLEb
  simp [Bool.or_eq_true, Bool.and_eq_true, beq_iff_eq, decide_eq_true_iff]

instance : IsTrans (String × Int) bkeyLE := by
  constructor
  intro a b c hab hbc
  rw [bkeyLE_iff] at hab hbc ⊢
  rcases hab with h1 | ⟨he1, hl1⟩
  · rcases hbc with h2 | ⟨he2, hl2⟩
    · exact Or.inl (charListLTb_trans _ _ _ h1 h2)
    · exact Or.inl (he2 ▸ h1)
  · rcases hbc with h2 | ⟨he2, hl2⟩
    · exact Or.inl (he1 ▸ h2)
    · exact Or.inr ⟨he1.trans he2, hl1.trans hl2⟩

instance : IsAntisymm (String × Int) bkeyLE := by
  constructor
  intro a b hab hba
  rw [bkeyLE_iff] at hab hba
  rcases hab with h1 | ⟨he1, hl1⟩
  · rcases hba with h2 | ⟨he2, hl2⟩
    · have hc : charListLTb b.1.data a.1.data = true := h2
      rw [charListLTb_asymm _ _ h1] at hc
      exact absurd hc (by simp)
    · rw [he2] at h1
      rw [show strLTb a.1 a.1 = false from charListLTb_irrefl a.1.data] at h1
      exact absurd h1 (by simp)
  · rcases hba with h2 | ⟨he2, hl2⟩
    · rw [he1] at h2
      rw [show strLTb b.1 b.1 = false from charListLTb_irrefl b.1.data] at h2
      exact absurd h2 (by simp)
    · exact Prod.ext he1 (le_antisymm hl1 hl2)

instance : IsTotal (String × Int) bkeyLE := by
  constructor
  intro a b
  rw [bkeyLE_iff, bkeyLE_iff]
  cases hab : strLTb a.1 b.1 with
  | true => exact Or.inl (Or.inl rfl)
  | false =>
      cases hba : strLTb b.1 a.1 with
      | true => exact Or.inr (Or.inl rfl)
      | false =>
          have he := strLTb_eq_of_not a.1 b.1 hab hba
          rcases le_total a.2 b.2 with hl | hl
          · exact Or.inl (Or.inr ⟨he, hl⟩)
          · exact Or.inr (Or.inr ⟨he.symm, hl⟩)

theorem filter_map_appKey (p : String → Bool) (rows : List DfRow) :
    (rows.filter (fun r => p r.building)).map appKey
      = (rows.map appKey).filter (fun k => p k.1) := by
  induction rows with
  | nil => rfl
  | cons r t ih =>
      by_cases h : p r.building
      · simp [List.filter_cons, h, appKey, ih]
      · simp [List.filter_cons, h, appKey, ih]

theorem dedup_filter_perm {α : Type} [DecidableEq α] (q : α → Bool) (m : List α) :
    ((m.filter q).dedup).Perm ((m.dedup).filter q) := by
  rw [List.perm_ext_iff_of_nodup (List.nodup_dedup _) ((List.nodup_dedup m).filter q)]
  intro a
  simp [List.mem_dedup, List.mem_filter]

theorem sortKeys_filter_comm (q : String × Int → Bool) (m : List (String × Int)) :
    List.insertionSort bkeyLE ((m.filter q).dedup)
      = (List.insertionSort bkeyLE m.dedup).filter q := by
  apply List.eq_of_perm_of_sorted (r := bkeyLE)
  · exact (List.perm_insertionSort _ _).trans
      ((dedup_filter_perm q m).trans
        (List.Perm.filter q (List.perm_insertionSort bkeyLE m.dedup).symm))
  · exact List.sorted_insertionSort bkeyLE _
  · exact List.Pairwise.sublist (List.filter_sublist _) (List.sorted_insertionSort bkeyLE m.dedup)

theorem appKeys_filter (p : String → Bool) (rows : List DfRow) :
    appKeys (rows.filter (fun r => p r.building))
      = (appKeys rows).filter (fun k => p k.1) := by
  unfold appKeys
  rw [filter_map_appKey, sortKeys_filter_comm]

theorem groupRows_filter (p : String → Bool) (rows : List DfRow) (k : String × Int)
    (hk : p k.1 = true) :
    groupRows (rows.filter (fun r => p r.building)) k = groupRows rows k := by
  unfold groupRows
  rw [List.filter_filter]
  apply List.filter_congr
  intro r hr
  cases hkey : (r.building == k.1 && r.year == k.2) with
  | false => simp [hkey]
  | true =>
      have hb : r.building = k.1 := by
        have := (Bool.and_eq_true _ _).mp hkey
        exact beq_iff_eq.mp this.1
      simp [hkey, hb, hk]

theorem filterMap_filter_comm {α β : Type} (g g2 : α → Option β) (pk : α → Bool)
    (q : β → Bool)
    (h1 : ∀ a, pk a = true →
        g2 a = match g a with
               | some b => if q b then some b else none
               | none => none)
    (h2 : ∀ a b, pk a = false → g a = some b → q b = false) :
    ∀ l : List α, (l.filter pk).filterMap g2 = (l.filterMap g).filter q := by
  intro l
  induction l with
  | nil => rfl
  | cons a t ih =>
      cases hp : pk a with
      | true =>
          rw [List.filter_cons_of_pos hp, List.filterMap_cons, List.filterMap_cons, h1 a hp]
          cases hg : g a with
          | none => simpa using ih
          | some b =>
              cases hq : q b with
              | true => simp [hq, List.filter_cons, ih]
              | false => simp [hq, List.filter_cons, ih]
      | false =>
          rw [List.filter_cons_of_neg (by simp [hp]), List.filterMap_cons]
          cases hg : g a with
          | none => simpa using ih
          | some b =>
              have := h2 a b hp hg
              simp [List.filter_cons, this, ih]

theorem yearOkB_none (y : Int) : yearOkB none y = true := rfl

theorem filterMap_year_comm (rows : List DfRow) (yf : Option Int)
    (l : List (String × Int)) :
    l.filterMap (emitMetric rows yf)
      = (l.filterMap (emitMetric rows none)).filter (fun m => yearOkB yf m.year) := by
  induction l with
  | nil => rfl
  | cons k t ih =>
      rw [List.filterMap_cons, List.filterMap_cons]
      cases hpos : (groupEnergy rows k).posB with
      | false => simp [emitMetric, hpos, ih]
      | true =>
          cases hy : yearOkB yf k.2 with
          | true => simp [emitMetric, hpos, hy, yearOkB_none, List.filter_cons, ih]
          | false => simp [emitMetric, hpos, hy, yearOkB_none, List.filter_cons, ih]

theorem get_all_metrics_building_comm (rows : List DfRow) (b : String) (yf : Option Int) :
    get_all_metrics rows (some b) yf
      = (get_all_metrics rows none yf).filter (fun m => containsCI m.building b) := by
  unfold get_all_metrics
  simp only
  rw [appKeys_filter (fun s => containsCI s b) rows]
  apply filterMap_filter_comm
  · intro k hk
    have hg : groupEnergy (rows.filter (fun r => containsCI r.building b)) k
        = groupEnergy rows k := by
      unfold groupEnergy
      rw [groupRows_filter (fun s => containsCI s b) rows k hk]
    unfold emitMetric
    rw [hg]
    cases hpos : (groupEnergy rows k).posB with
    | false => simp [hpos]
    | true =>
        cases hy : yearOkB yf k.2 with
        | false => simp [hpos, hy]
        | true => simp [hpos, hy, hk]
  · intro k m hk hm
    simp only [emitMetric] at hm
    split at hm
    · split at hm
      · rw [← Option.some.inj hm]
        exact hk
      · exact absurd hm (by simp)
    · exact absurd hm (by simp)

/-- In the literal-substring model of the building filter, get_all_metrics
with any combination of the optional filters equals the unfiltered
aggregation filtered per record by the conjunction of the building and
year predicates; an absent filter passes everything. -/
theorem get_all_metrics_filter_split (rows : List DfRow) (bf : Option String) (yf : Option Int) :
    get_all_metrics rows bf yf
      = (get_all_metrics rows none none).filter
          (fun m => bldOkB bf m.building && yearOkB yf m.year) := by
  cases bf with
  | none =>
      simpa [get_all_metrics, bldOkB] using filterMap_year_comm rows yf (appKeys rows)
  | some b =>
      rw [get_all_metrics_building_comm rows b yf]
      have hy : get_all_metrics rows none yf
          = (get_all_metrics rows none none).filter (fun m => yearOkB yf m.year) := by
        simpa [get_all_metrics] using filterMap_year_comm rows yf (appKeys rows)
      rw [hy, List.filter_filter]
      simp [bldOkB]

theorem findEntry_setEntry {K G : Type} [DecidableEq K] (st : List (K × G))
    (k k2 : K) (g : G) :
    findEntry (setEntry st k g) k2 = if k = k2 then some g else findEntry st k2 := by
  induction st with
  | nil =>
      by_cases h : k = k2
      · simp [setEntry, findEntry, h]
      · simp [setEntry, findEntry, h]
  | cons p t ih =>
      obtain ⟨k0, g0⟩ := p
      by_cases h0 : k0 = k
      · subst h0
        by_cases h2 : k0 = k2
        · subst h2; simp [setEntry, findEntry]
        · simp [setEntry, findEntry, h2]
      · by_cases h2 : k0 = k2
        · subst h2
          have : ¬ k = k0 := fun h => h0 h.symm
          simp [setEntry, findEntry, h0, this]
        · simp [setEntry, findEntry, h0, h2, ih]

theorem findEntry_foldl_dictStep {R K C G : Type} [DecidableEq K]
    (conOf : R → Option (K × C)) (upd : G → C → G) (dflt : G) (k : K) :
    ∀ (rows : List R) (st : List (K × G)),
    findEntry (rows.foldl (dictStep conOf upd dflt) st) k
      = (rows.filterMap (fun r => match conOf r with
            | some kc => if kc.1 = k then some kc.2 else none
            | none => none)).foldl (applyCons upd dflt) (findEntry st k) := by
  intro rows
  induction rows with
  | nil => intro st; rfl
  | cons r t ih =>
      intro st
      rw [List.foldl_cons, List.filterMap_cons, ih (dictStep conOf upd dflt st r)]
      cases hc : conOf r with
      | none => simp [dictStep, hc]
      | some kc =>
          obtain ⟨k2, c⟩ := kc
          by_cases hk : k2 = k
          · subst hk
            simp [dictStep, hc, findEntry_setEntry, applyCons]
          · simp [dictStep, hc, findEntry_setEntry, hk]

theorem findEntry_dictFold {R K C G : Type} [DecidableEq K]
    (conOf : R → Option (K × C)) (upd : G → C → G) (dflt : G) (k : K)
    (rows : List R) :
    findEntry (dictFold conOf upd dflt rows) k
      = (keyContribs conOf rows k).foldl (applyCons upd dflt) none := by
  unfold dictFold keyContribs
  rw [findEntry_foldl_dictStep]
  rfl

theorem findEntry_dictFold_none {R K C G : Type} [DecidableEq K]
    (conOf : R → Option (K × C)) (upd : G → C → G) (dflt : G) (k : K)
    (rows : List R) (h : ∀ r ∈ rows, ∀ c, conOf r ≠ some (k, c)) :
    findEntry (dictFold conOf upd dflt rows) k = none := by
  rw [findEntry_dictFold]
  have hnil : keyContribs conOf rows k = [] := by
    unfold keyContribs
    rw [List.filterMap_eq_nil_iff]
    intro r hr
    cases hc : conOf r with
    | none => simp
    | some kc =>
        obtain ⟨k2, c⟩ := kc
        by_cases hk : k2 = k
        · subst hk
          exact absurd hc (h r hr c)
        · simp [hk]
  rw [hnil]
  rfl

theorem updPU2_energy (g : ProcV2.Group2) (s : String) :
    (ProcV2.updPU g s).energy_kwh = g.energy_kwh := by
  unfold ProcV2.updPU
  split <;> rfl

theorem updGsf_energy (g : ProcV2.Group2) (s : String) :
    (ProcV2.updGsf g s).energy_kwh = g.energy_kwh := by
  unfold ProcV2.updGsf
  split
  · split <;> rfl
  · rfl

theorem updOcc_energy (g : ProcV2.Group2) (s : String) :
    (ProcV2.updOcc g s).energy_kwh = g.energy_kwh := by
  unfold ProcV2.updOcc
  split
  · split <;> rfl
  · rfl

theorem updGsf_pu (g : ProcV2.Group2) (s : String) :
    (ProcV2.updGsf g s).primary_use = g.primary_use := by
  unfold ProcV2.updGsf
  split
  · split <;> rfl
  · rfl

theorem updOcc_pu (g : ProcV2.Group2) (s : String) :
    (ProcV2.updOcc g s).primary_use = g.primary_use := by
  unfold ProcV2.updOcc
  split
  · split <;> rfl
  · rfl

theorem updPU2_gsf (g : ProcV2.Group2) (s : String) :
    (ProcV2.updPU g s).gross_square_feet = g.gross_square_feet := by
  unfold ProcV2.updPU
  split <;> rfl

theorem updOcc_gsf (g : ProcV2.Group2) (s : String) :
    (ProcV2.updOcc g s).gross_square_feet = g.gross_square_feet := by
  unfold ProcV2.updOcc
  split
  · split <;> rfl
  · rfl

theorem updPU2_occ (g : ProcV2.Group2) (s : String) :
    (ProcV2.updPU g s).occupancy = g.occupancy := by
  unfold ProcV2.updPU
  split <;> rfl

theorem updGsf_occ (g : ProcV2.Group2) (s : String) :
    (ProcV2.updGsf g s).occupancy = g.occupancy := by
  unfold ProcV2.updGsf
  split
  · split <;> rfl
  · rfl

theorem updPU2_pu (g : ProcV2.Group2) (s : String) :
    (ProcV2.updPU g s).primary_use
      = if g.primary_use == "" && s != "" && s != "..." then s else g.primary_use := by
  unfold ProcV2.updPU
  split <;> simp_all

theorem updGsf_gsf (g : ProcV2.Group2) (s : String) :
    (ProcV2.updGsf g s).gross_square_feet
      = if g.gross_square_feet == 0 && s != "" && s != "..." then
          match parseFloat s with
          | some q => q.trunc
          | none => g.gross_square_feet
        else g.gross_square_feet := by
  unfold ProcV2.updGsf
  split
  · split <;> simp_all
  · simp_all

theorem updOcc_occ (g : ProcV2.Group2) (s : String) :
    (ProcV2.updOcc g s).occupancy
      = if g.occupancy == 0 && s != "" && s != "..." then
          match parseFloat s with
          | some q => q.trunc
          | none => g.occupancy
        else g.occupancy := by
  unfold ProcV2.updOcc
  split
  · split <;> simp_all
  · simp_all

theorem upd2_energy (g : ProcV2.Group2) (c : ProcV2.Con2) :
    (ProcV2.upd g c).energy_kwh = g.energy_kwh + c.energy := by
  unfold ProcV2.upd
  rw [updOcc_energy, updGsf_energy, updPU2_energy]

theorem upd2_pu (g : ProcV2.Group2) (c : ProcV2.Con2) :
    (ProcV2.upd g c).primary_use
      = if g.primary_use == "" && c.pu != "" && c.pu != "..." then c.pu
        else g.primary_use := by
  unfold ProcV2.upd
  rw [updOcc_pu, updGsf_pu, updPU2_pu]

theorem upd2_gsf (g : ProcV2.Group2) (c : ProcV2.Con2) :
    (ProcV2.upd g c).gross_square_feet
      = if g.gross_square_feet == 0 && c.gsf != "" && c.gsf != "..." then
          match parseFloat c.gsf with
          | some q => q.trunc
          | none => g.gross_square_feet
        else g.gross_square_feet := by
  unfold ProcV2.upd
  rw [updOcc_gsf, updGsf_gsf, updPU2_gsf]

theorem upd2_occ (g : ProcV2.Group2) (c : ProcV2.Con2) :
    (ProcV2.upd g c).occupancy
      = if g.occupancy == 0 && c.occ != "" && c.occ != "..." then
          match parseFloat c.occ with
          | some q => q.trunc
          | none => g.occupancy
        else g.occupancy := by
  unfold ProcV2.upd
  rw [updOcc_occ, updGsf_occ, updPU2_occ]

theorem str_ite_collapse (s : String) : (if s == "" then "" else s) = s := by
  by_cases h : (s == "") = true
  · rw [if_pos h, beq_iff_eq.mp h]
  · rw [if_neg h]

theorem int_ite_collapse (n : Int) : (if n == 0 then 0 else n) = n := by
  by_cases h : (n == 0) = true
  · rw [if_pos h, beq_iff_eq.mp h]
  · rw [if_neg h]

theorem v2_fold_some (cs : List ProcV2.Con2) :
    ∀ g : ProcV2.Group2,
    cs.foldl (applyCons ProcV2.upd ⟨0, "", 0, 0⟩) (some g)
      = some ⟨g.energy_kwh + sumE cs,
              if g.primary_use == "" then firstPU cs else g.primary_use,
              if g.gross_square_feet == 0 then firstNZ (fun c => c.gsf) cs
                else g.gross_square_feet,
              if g.occupancy == 0 then firstNZ (fun c => c.occ) cs
                else g.occupancy⟩ := by
  induction cs with
  | nil =>
      intro g
      simp only [List.foldl_nil, sumE, firstPU, firstNZ]
      rw [add_zero, str_ite_collapse, int_ite_collapse, int_ite_collapse]
  | cons c t ih =>
      intro g
      rw [List.foldl_cons,
        show applyCons ProcV2.upd ⟨0, "", 0, 0⟩ (some g) c = some (ProcV2.upd g c) from rfl,
        ih (ProcV2.upd g c)]
      simp only [Option.some.injEq, ProcV2.Group2.mk.injEq]
      refine ⟨?_, ?_, ?_, ?_⟩
      · rw [upd2_energy]
        simp only [sumE]
        rw [add_assoc]
      · rw [upd2_pu]
        by_cases hg : (g.primary_use == "") = true
        · by_cases hc : (c.pu != "" && c.pu != "...") = true
          · have hcne : (c.pu == "") = false := by
              have h1 := ((Bool.and_eq_true _ _).mp hc).1
              simpa using h1
            simp [hg, hc, firstPU, hcne]
          · simp [hg, hc, firstPU]
        · simp [hg, firstPU]
      · rw [upd2_gsf]
        by_cases hg : (g.gross_square_feet == 0) = true
        · by_cases hc : (c.gsf != "" && c.gsf != "...") = true
          · cases hp : parseFloat c.gsf with
            | none => simp [hg, hc, firstNZ, hp]
            | some q =>
                by_cases hz : (q.trunc == 0) = true
                · simp [hg, hc, firstNZ, hp, hz, beq_iff_eq.mp hz]
                · simp [hg, hc, firstNZ, hp, hz]
          · simp [hg, hc, firstNZ]
        · simp [hg, firstNZ]
      · rw [upd2_occ]
        by_cases hg : (g.occupancy == 0) = true
        · by_cases hc : (c.occ != "" && c.occ != "...") = true
          · cases hp : parseFloat c.occ with
            | none => simp [hg, hc, firstNZ, hp]
            | some q =>
                by_cases hz : (q.trunc == 0) = true
                · simp [hg, hc, firstNZ, hp, hz, beq_iff_eq.mp hz]
                · simp [hg, hc, firstNZ, hp, hz]
          · simp [hg, hc, firstNZ]
        · simp [hg, firstNZ]

theorem rowEnergyKwh_absent (r : DfRow) (h : energyAbsent r = true) :
    rowEnergyKwh r = PyFloat.ofInt 0 := by
  cases he : r.energy_MMBtu with
  | none => simp [rowEnergyKwh, he]
  | some s =>
      have h2 : (pyStrip s).isEmpty = true ∨ parseFloat s = none := by
        unfold energyAbsent at h
        rw [he] at h
        simpa [Option.isNone_iff_eq_none] using h
      rcases h2 with h2 | h2
      · simp [rowEnergyKwh, he, h2]
      · by_cases hse : (pyStrip s).isEmpty = true
        · simp [rowEnergyKwh, he, hse]
        · simp [rowEnergyKwh, he, hse, h2]

theorem foldl_add_num_zero {α : Type} (f : α → PyFloat) (l : List α)
    (h : ∀ a ∈ l, (f a).num = 0) :
    ∀ s : PyFloat, s.num = 0 → (l.foldl (fun acc a => acc.add (f a)) s).num = 0 := by
  induction l with
  | nil => intro s hs; simpa using hs
  | cons a t ih =>
      intro s hs
      rw [List.foldl_cons]
      apply ih (fun x hx => h x (List.mem_cons_of_mem _ hx))
      simp [PyFloat.add, hs, h a (List.mem_cons_self _ _)]

theorem rawEnergyAbsent_convert (r : RawRow) (h : rawEnergyAbsent r = true) :
    ProcV1.convert_mmbtu_to_kwh (String.mk (pyStrip r.energy_MMBtu)) = none := by
  unfold ProcV1.convert_mmbtu_to_kwh
  by_cases hc : (String.mk (pyStrip r.energy_MMBtu) == ""
      || String.mk (pyStrip r.energy_MMBtu) == "...") = true
  · rw [if_pos hc]
  · rw [if_neg hc]
    have hp : parseFloat (String.mk (pyStrip r.energy_MMBtu)) = none := by
      unfold rawEnergyAbsent at h
      simp only [Bool.or_eq_true] at h hc
      rcases h with (h | h) | h
      · have he : (String.mk (pyStrip r.energy_MMBtu) == "") = true := by
          rw [List.isEmpty_iff.mp h]
          decide
        exact absurd (Or.inl he) hc
      · exact absurd (Or.inr h) hc
      · exact Option.isNone_iff_eq_none.mp h
    simp [hp]

/-- C3: a (building, year) group in which every reading has absent energy
(NaN, blank after stripping, the `...` placeholder, or any value that
fails to parse as a float) is dropped entirely: the API aggregator emits
no record for it (every absent reading contributes zero, so the group sum
fails the positivity gate), and the script aggregator never creates a
dict entry for its key (each of its rows is skipped before the dict is
touched). -/
theorem claim_C3_zero_group_dropped (rows : List DfRow) (raws : List RawRow)
    (b : String) (y : Int) (ys : String)
    (happ : ∀ r ∈ rows, r.building = b → r.year = y → energyAbsent r = true)
    (hscr : ∀ r ∈ raws, String.mk (pyStrip r.building) = b →
        String.mk (pyStrip r.year) = ys → rawEnergyAbsent r = true) :
    (∀ m ∈ get_all_metrics rows none none, ¬(m.building = b ∧ m.year = y))
    ∧ findEntry (ProcV1.aggregate raws) (b, ys) = none := by
  constructor
  · rintro m hm ⟨hmb, hmy⟩
    simp only [get_all_metrics] at hm
    rw [List.mem_filterMap] at hm
    obtain ⟨k, hk, hemit⟩ := hm
    simp only [emitMetric] at hemit
    split at hemit
    case isTrue hpos =>
      split at hemit
      case isTrue =>
        have hm2 := Option.some.inj hemit
        rw [← hm2] at hmb hmy
        have hk1 : k.1 = b := hmb
        have hk2 : k.2 = y := hmy
        have hnum : (groupEnergy rows k).num = 0 := by
          unfold groupEnergy
          apply foldl_add_num_zero
          · intro r hr
            unfold groupRows at hr
            rw [List.mem_filter] at hr
            obtain ⟨hrm, hcond⟩ := hr
            have hb2 : r.building = k.1 :=
              beq_iff_eq.mp ((Bool.and_eq_true _ _).mp hcond).1
            have hy3 : r.year = k.2 :=
              beq_iff_eq.mp ((Bool.and_eq_true _ _).mp hcond).2
            rw [rowEnergyKwh_absent r (happ r hrm (hb2.trans hk1) (hy3.trans hk2))]
            rfl
          · rfl
        simp only [PyFloat.posB] at hpos
        rw [hnum] at hpos
        simp at hpos
      case isFalse => exact absurd hemit (by simp)
    case isFalse => exact absurd hemit (by simp)
  · apply findEntry_dictFold_none
    intro r hr c hc
    simp only [ProcV1.conOf] at hc
    split at hc
    · exact absurd hc (by simp)
    · split at hc
      · exact absurd hc (by simp)
      · rename_i e heq
        split at hc
        · exact absurd hc (by simp)
        · have hinj := Option.some.inj hc
          have hbk : String.mk (pyStrip r.building) = b :=
            congrArg (fun p => p.1.1) hinj
          have hyk : String.mk (pyStrip r.year) = ys :=
            congrArg (fun p => p.1.2) hinj
          have hcvt := rawEnergyAbsent_convert r (hscr r hr hbk hyk)
          rw [hcvt] at heq
          simp at heq

theorem claim_C3_witness :
    (∀ m ∈ get_all_metrics rowsC3 none none,
        ¬(m.building = "Empty Hall" ∧ m.year = 2022))
    ∧ findEntry (ProcV1.aggregate rawsC3) ("Empty Hall", "2022") = none :=
  claim_C3_zero_group_dropped rowsC3 rawsC3 "Empty Hall" 2022 "2022"
    (by decide) (by decide)

/-- C1 counterexample: on the spec's end-to-end input the pipelines
report energy_consumption_kwh 73267, not the claimed round(250*293.071)
= 73268, because both apply `int()` truncation rather than rounding. -/
theorem claim_C1_counterexample :
    (get_all_metrics rowsC1 none none).map (fun m => m.energy_consumption_kwh) = [73267]
    ∧ (ProcV1.outputRows rawsC1).map (fun m => m.energy_consumption_kwh) = [73267]
    ∧ (73267 : Int) ≠ 73268 := by decide

/-- C1 (amended): the end-to-end input produces exactly one record for
(West Hall, 2022) with energy_consumption_kwh int(250*293.071) = 73267
(truncation, not rounding) and co2_emissions_tons 29.3, in both the API
aggregation and the processing script. -/
theorem claim_C1_scenario :
    get_all_metrics rowsC1 none none
      = [⟨"West Hall", 2022, 73267, 36633, 2417, ⟨293, 10⟩⟩]
    ∧ ProcV1.outputRows rawsC1
      = [⟨"West Hall", 2022, 73267, 36633, 2442, ⟨293, 10⟩, "other"⟩] := by decide

/-- C2 counterexample: the API aggregator derives waste as
int(E * 0.033), which on the group total E = 293071 gives 9671, while
the claimed floor(E / 30) gives 9769. -/
theorem claim_C2_counterexample :
    (get_all_metrics rowsC2 none none).map
        (fun m => (m.energy_consumption_kwh, m.waste_diverted_lbs)) = [(293071, 9671)]
    ∧ ((PyFloat.ofInt 293071).divI 30).trunc = 9769
    ∧ (9671 : Int) ≠ 9769 := by decide

/-- C2 (amended): every record the API aggregator emits carries exactly
the derived metrics int(E*0.5), int(E*0.033) and round(E*0.0004, 1) of
its positive group total E; every record the processing script emits
carries the script helpers applied to its integer total, where the
helpers are floor(E*0.5), floor(E/30) and round(E*0.0004, 1) for nonzero
E and all three are zero at zero energy. -/
theorem claim_C2_derivations :
    (∀ (rows : List DfRow) (bf : Option String) (yf : Option Int),
      ∀ m ∈ get_all_metrics rows bf yf,
      ∃ e : PyFloat, e.posB = true
        ∧ m.energy_consumption_kwh = e.trunc
        ∧ m.water_consumption_gallons = (e.mul WATER_PER_KWH).trunc
        ∧ m.waste_diverted_lbs = (e.mul WASTE_PER_KWH).trunc
        ∧ m.co2_emissions_tons = (e.mul CO2_PER_KWH).round1)
    ∧ (∀ (raws : List RawRow), ∀ m ∈ ProcV1.outputRows raws,
        m.water_consumption_gallons
            = ProcV1.estimate_water_from_energy m.energy_consumption_kwh
        ∧ m.waste_diverted_lbs
            = ProcV1.estimate_waste_from_energy m.energy_consumption_kwh
        ∧ m.co2_emissions_tons
            = ProcV1.calculate_co2_from_energy m.energy_consumption_kwh)
    ∧ (∀ e : Int, e ≠ 0 →
        ProcV1.estimate_water_from_energy e = ((PyFloat.ofInt e).mul WATER_PER_KWH).trunc
        ∧ ProcV1.estimate_waste_from_energy e = ((PyFloat.ofInt e).divI 30).trunc
        ∧ ProcV1.calculate_co2_from_energy e = ((PyFloat.ofInt e).mul CO2_PER_KWH).round1)
    ∧ ProcV1.estimate_water_from_energy 0 = 0
    ∧ ProcV1.estimate_waste_from_energy 0 = 0
    ∧ ProcV1.calculate_co2_from_energy 0 = PyFloat.ofInt 0 := by
  refine ⟨?_, ?_, ?_, by decide, by decide, by decide⟩
  · intro rows bf yf m hm
    simp only [get_all_metrics] at hm
    rw [List.mem_filterMap] at hm
    obtain ⟨k, hk, hemit⟩ := hm
    simp only [emitMetric] at hemit
    split at hemit
    case isTrue hpos =>
      split at hemit
      case isTrue =>
          have hm2 := Option.some.inj hemit
          exact ⟨_, hpos, by rw [← hm2], by rw [← hm2], by rw [← hm2], by rw [← hm2]⟩
      case isFalse => exact absurd hemit (by simp)
    case isFalse => exact absurd hemit (by simp)
  · intro raws m hm
    simp only [ProcV1.outputRows] at hm
    rw [List.mem_map] at hm
    obtain ⟨kg, hkg, hm2⟩ := hm
    exact ⟨by rw [← hm2], by rw [← hm2], by rw [← hm2]⟩
  · intro e he
    have hne : (e == 0) = false := by simpa using he
    refine ⟨?_, ?_, ?_⟩
    · unfold ProcV1.estimate_water_from_energy
      rw [hne]
      simp
    · unfold ProcV1.estimate_waste_from_energy
      rw [hne]
      simp
    · unfold ProcV1.calculate_co2_from_energy
      rw [hne]
      simp

theorem claim_C2_witness :
    ProcV1.estimate_waste_from_energy 73267 = ((PyFloat.ofInt 73267).divI 30).trunc
    ∧ ProcV1.estimate_water_from_energy 0 = 0 :=
  ⟨(claim_C2_derivations.2.2.1 73267 (by decide)).2.1, claim_C2_derivations.2.2.2.1⟩

/-- C4 counterexample: convert_mmbtu_to_kwh maps the string 0 to the
present value 0 kWh, but the aggregation loop then skips the reading
(`if not energy_kwh: continue`), so a 0-MMBtu reading has exactly the
same effect as an absent one: its metadata is ignored and the aggregate
is identical to the absent-energy variant of the same input. -/
theorem claim_C4_counterexample :
    ProcV1.convert_mmbtu_to_kwh "0" = some 0
    ∧ ProcV1.aggregate rawsC4zero = ProcV1.aggregate rawsC4empty
    ∧ ProcV1.aggregate rawsC4zero = [(("B", "2022"), ⟨1465, ""⟩)] := by decide

/-- C4 (amended): unit conversion of an explicit 0 MMBtu reading yields
0 kWh, not absent; however the script aggregation loop treats the zero
result as falsy and skips the reading entirely, and in the API handler a
0 reading merely contributes zero to its group sum. -/
theorem claim_C4_zero_policy :
    ProcV1.convert_mmbtu_to_kwh "0" = some 0
    ∧ (∀ (st : List ((String × String) × ProcV1.Group1)) (r : RawRow),
        ProcV1.convert_mmbtu_to_kwh (String.mk (pyStrip r.energy_MMBtu)) = some 0 →
        dictStep ProcV1.conOf ProcV1.upd ⟨0, ""⟩ st r = st)
    ∧ (∀ r : DfRow, r.energy_MMBtu = some "0" → (rowEnergyKwh r).num = 0) := by
  refine ⟨by decide, ?_, ?_⟩
  · intro st r hcv
    unfold dictStep
    have hnone : ProcV1.conOf r = none := by
      simp only [ProcV1.conOf]
      split
      · rfl
      · rw [hcv]
        simp
    rw [hnone]
  · intro r hr
    have hp : parseFloat "0" = some ⟨0, 1⟩ := by decide
    have hs : pyStrip "0" ≠ [] := by decide
    simp [rowEnergyKwh, hr, hp, PyFloat.mul, hs]

theorem claim_C4_witness :
    ProcV1.convert_mmbtu_to_kwh "0" = some 0
    ∧ dictStep ProcV1.conOf ProcV1.upd ⟨0, ""⟩ [] (⟨"B", "Jan", "2022", "0", "", "", "Academic"⟩ : RawRow) = []
    ∧ (rowEnergyKwh ⟨"B", "Jan", 2022, some "0", none, none, none⟩).num = 0 :=
  ⟨claim_C4_zero_policy.1,
   claim_C4_zero_policy.2.1 [] ⟨"B", "Jan", "2022", "0", "", "", "Academic"⟩ (by decide),
   claim_C4_zero_policy.2.2 ⟨"B", "Jan", 2022, some "0", none, none, none⟩ rfl⟩

/-- C5: the category mapper maps a primary_use string by case-insensitive
substring matching against the ordered keyword table (first table entry
whose keyword occurs in the lowercased input wins); absent, empty or
placeholder input maps to other and no match maps to other; in
particular Academic Library maps to academic (in both table versions),
and the first table entry wins even when a later keyword also occurs. -/
theorem claim_C5_category_mapper :
    (∀ s : String, s = "" ∨ s = "..." → ProcV2.map_primary_use_to_metric_type s = "other")
    ∧ (∀ s : String, s ≠ "" → s ≠ "..." →
        ProcV2.map_primary_use_to_metric_type s
          = (match ProcV2.mapping.find? (fun kv => listSub kv.1.data (lowerChars s.data)) with
             | some kv => kv.2
             | none => "other"))
    ∧ (∀ s : String,
        (∀ kv ∈ ProcV2.mapping, listSub kv.1.data (lowerChars s.data) = false) →
        ProcV2.map_primary_use_to_metric_type s = "other")
    ∧ ProcV2.map_primary_use_to_metric_type "Academic Library" = "academic"
    ∧ ProcV1.map_primary_use_to_metric_type "Academic Library" = "academic"
    ∧ ProcV2.map_primary_use_to_metric_type "Dining Hall, Academic Wing" = "academic" := by
  refine ⟨?_, ?_, ?_, by decide, by decide, by decide⟩
  · intro s hs
    rcases hs with h | h <;> subst h <;> decide
  · intro s h1 h2
    unfold ProcV2.map_primary_use_to_metric_type
    rw [if_neg (by simp [h1, h2])]
  · intro s hall
    unfold ProcV2.map_primary_use_to_metric_type
    split
    · rfl
    · have hf : ProcV2.mapping.find? (fun kv => listSub kv.1.data (lowerChars s.data)) = none := by
        rw [List.find?_eq_none]
        intro kv hkv
        simp [hall kv hkv]
      rw [hf]

theorem claim_C5_witness :
    ProcV2.map_primary_use_to_metric_type "" = "other"
    ∧ ProcV2.map_primary_use_to_metric_type "laundry" = "other"
    ∧ ProcV2.map_primary_use_to_metric_type "Academic Library" = "academic" :=
  ⟨claim_C5_category_mapper.1 "" (Or.inl rfl),
   claim_C5_category_mapper.2.2.1 "laundry" (by decide),
   claim_C5_category_mapper.2.2.2.1⟩

theorem reMatchF_literal (cs : List Char) :
    ∀ (fuel : Nat) (s : List Char), cs.length < fuel →
    reMatchF fuel (litTokens cs) s
      = (lowerChars cs).isPrefixOf (lowerChars s) := by
  induction cs with
  | nil =>
      intro fuel s h
      cases fuel with
      | zero => omega
      | succ k => simp [litTokens, reMatchF, lowerChars, List.isPrefixOf]
  | cons c cs ih =>
      intro fuel s h
      cases fuel with
      | zero => simp at h
      | succ k =>
          have hk : cs.length < k := by
            simp only [List.length_cons] at h
            omega
          cases s with
          | nil => rfl
          | cons d s2 =>
              have hstep : reMatchF (k + 1) (litTokens (c :: cs)) (d :: s2)
                  = (atomMatch (ReAtom.lit c) d && reMatchF k (litTokens cs) s2) := rfl
              rw [hstep, ih k s2 hk]
              simp [atomMatch, lowerChars, List.isPrefixOf]

theorem reMatchTop_literal (cs s : List Char) :
    reMatchTop (litTokens cs) s = (lowerChars cs).isPrefixOf (lowerChars s) := by
  have hbound : cs.length < reFuel (litTokens cs) s := by
    have h1 : cs.length < 2 * ((litTokens cs).length + 1) := by
      simp only [litTokens, List.length_map]
      omega
    exact lt_of_lt_of_le h1 (Nat.le_mul_of_pos_right _ (by omega))
  exact reMatchF_literal cs (reFuel (litTokens cs) s) s hbound

theorem reSearch_literal (cs : List Char) : ∀ (hay : List Char),
    reSearch (litTokens cs) hay = listSub (lowerChars cs) (lowerChars hay) := by
  intro hay
  induction hay with
  | nil =>
      have h1 : reSearch (litTokens cs) [] = reMatchTop (litTokens cs) [] := rfl
      rw [h1, reMatchTop_literal]
      cases cs <;> simp [lowerChars, listSub, List.isPrefixOf]
  | cons d t ih =>
      have h1 : reSearch (litTokens cs) (d :: t)
          = (reMatchTop (litTokens cs) (d :: t) || reSearch (litTokens cs) t) := rfl
      rw [h1, reMatchTop_literal, ih]
      simp [lowerChars, listSub]

theorem parseRe_regexFree_aux (cs : List Char)
    (hall : ∀ c ∈ cs, reMetaChars.contains c = false) :
    parseRe cs = some (litTokens cs) := by
  induction cs with
  | nil => rfl
  | cons c t ih =>
      have hc : reMetaChars.contains c = false := hall c (List.mem_cons_self c t)
      have hcdot : ¬ c = '.' := by
        intro hd
        rw [hd] at hc
        exact absurd hc (by decide)
      have hmem : c ∉ reMetaChars := by simpa using hc
      have hatom : atomOf c = some (ReAtom.lit c) := by
        simp [atomOf, hcdot, hmem]
      cases t with
      | nil => simp [parseRe, hatom, litTokens]
      | cons q t2 =>
          have hq : reMetaChars.contains q = false := hall q (by simp)
          have hq1 : ¬ q = '+' := by intro hd; rw [hd] at hq; exact absurd hq (by decide)
          have hq2 : ¬ q = '*' := by intro hd; rw [hd] at hq; exact absurd hq (by decide)
          have hq3 : ¬ q = '?' := by intro hd; rw [hd] at hq; exact absurd hq (by decide)
          have ht : parseRe (q :: t2) = some (litTokens (q :: t2)) :=
            ih (fun x hx => hall x (List.mem_cons_of_mem c hx))
          simp [parseRe, hatom, hq1, hq2, hq3, ht, litTokens]

theorem parseRe_regexFree (s : String) (h : regexFree s = true) :
    parseRe s.data = some (litTokens s.data) := by
  apply parseRe_regexFree_aux
  intro c hc
  have h0 : s.data.all (fun c => !(reMetaChars.contains c)) = true := h
  have h2 := (List.all_eq_true.mp h0) c hc
  simpa using h2

theorem filter_reSearch_literal (rows : List DfRow) (name : String) :
    rows.filter (fun r => reSearch (litTokens name.data) r.building.data)
      = rows.filter (fun r => containsCI r.building name) :=
  List.filter_congr (fun r _ => (reSearch_literal name.data r.building.data).trans rfl)

theorem gbm_src_eq_literal (rows : List DfRow) (name : String)
    (h : regexFree name = true) :
    get_building_metrics_src rows name = some (get_building_metrics rows name) := by
  unfold get_building_metrics_src
  rw [parseRe_regexFree name h]
  simp only [Option.map]
  rw [filter_reSearch_literal rows name]
  rfl

theorem gam_src_eq_literal (rows : List DfRow) (bf : Option String) (yf : Option Int)
    (hb : ∀ b, bf = some b → regexFree b = true) :
    get_all_metrics_src rows bf yf = some (get_all_metrics rows bf yf) := by
  cases bf with
  | none => rfl
  | some b =>
      have hstep : get_all_metrics_src rows (some b) yf
          = (parseRe b.data).map (fun pat =>
              let rows1 := rows.filter (fun r => reSearch pat r.building.data)
              (appKeys rows1).filterMap (emitMetric rows1 yf)) := rfl
      rw [hstep, parseRe_regexFree b (hb b rfl)]
      simp only [Option.map]
      rw [filter_reSearch_literal rows b]
      rfl

/-- In the literal-substring model of the building filter, the
per-building endpoint answers with the not-found error (its message
naming the queried building) exactly when no row's building name
contains the query case-insensitively. -/
theorem gbm_notfound_iff (rows : List DfRow) (name : String) :
    (get_building_metrics rows name
        = Except.error ("Building \"" ++ name ++ "\" not found"))
      ↔ rows.filter (fun r => containsCI r.building name) = [] := by
  simp only [get_building_metrics]
  split
  case isTrue h =>
    constructor
    · intro _
      exact List.isEmpty_iff.mp h
    · intro _
      rfl
  case isFalse h =>
    constructor
    · intro hcontra
      exact absurd hcontra (by simp)
    · intro hnil
      exact absurd (List.isEmpty_iff.mpr hnil) h

/-- C6 counterexample: pandas str.contains compiles the path parameter
as a regex, so the query Hall+ (Hal followed by one or more l)
regex-matches West Hall although no row's building contains the
substring Hall+; the handler answers with a success payload instead of
the claimed NotFound for a name matched by zero rows under substring
semantics. -/
theorem claim_C6_counterexample :
    rowsC6x.filter (fun r => containsCI r.building "Hall+") = []
    ∧ get_building_metrics_src rowsC6x "Hall+"
        ≠ some (Except.error ("Building \"" ++ "Hall+" ++ "\" not found"))
    ∧ get_building_metrics_src rowsC6x "Hall+"
        = some (Except.ok [⟨"Hall+", 2022, 29307, 14653, 967, ⟨117, 10⟩, "unknown"⟩]) := by
  decide

/-- C6 (amended): the per-building endpoint matches buildings with
pandas str.contains, which compiles the name as a regular expression;
for a name free of regex metacharacters this is exactly
case-insensitive substring matching, and then the endpoint answers with
the not-found error (naming the building) iff zero rows match, never an
empty success list for a non-matching name; a name with metacharacters
is matched as a regex instead (see the counterexample). -/
theorem claim_C6_regex_literal (rows : List DfRow) (name : String)
    (h : regexFree name = true) :
    get_building_metrics_src rows name = some (get_building_metrics rows name)
    ∧ ((get_building_metrics_src rows name
          = some (Except.error ("Building \"" ++ name ++ "\" not found")))
        ↔ rows.filter (fun r => containsCI r.building name) = []) := by
  have heq := gbm_src_eq_literal rows name h
  refine ⟨heq, ?_⟩
  rw [heq, Option.some.injEq]
  exact gbm_notfound_iff rows name

theorem claim_C6_witness :
    get_building_metrics_src rowsC1 "Nonexistent"
        = some (get_building_metrics rowsC1 "Nonexistent")
    ∧ ((get_building_metrics_src rowsC1 "Nonexistent"
          = some (Except.error ("Building \"" ++ "Nonexistent" ++ "\" not found")))
        ↔ rowsC1.filter (fun r => containsCI r.building "Nonexistent") = []) :=
  claim_C6_regex_literal rowsC1 "Nonexistent" (by decide)

theorem mapPU1_mem_enum (s : String) :
    ProcV1.map_primary_use_to_metric_type s ∈ metricTypeValues := by
  unfold ProcV1.map_primary_use_to_metric_type
  split
  · decide
  · cases hf : ProcV1.mapping.find? (fun kv => listSub kv.1.data (lowerChars s.data)) with
    | none => simp only [hf]; decide
    | some kv =>
        simp only [hf]
        have hmem := List.mem_of_find?_eq_some hf
        fin_cases hmem <;> decide

theorem mapPU2_mem_enum (s : String) :
    ProcV2.map_primary_use_to_metric_type s ∈ metricTypeValues := by
  unfold ProcV2.map_primary_use_to_metric_type
  split
  · decide
  · cases hf : ProcV2.mapping.find? (fun kv => listSub kv.1.data (lowerChars s.data)) with
    | none => simp only [hf]; decide
    | some kv =>
        simp only [hf]
        have hmem := List.mem_of_find?_eq_some hf
        fin_cases hmem <;> decide

/-- C7 counterexample: get_building_metrics copies the raw primary_use
string into metric_type instead of mapping it, so the record for West
Hall carries metric_type Academic Library, which is not one of the seven
enum values. -/
theorem claim_C7_counterexample :
    get_building_metrics rowsC7 "West"
      = Except.ok [⟨"West", 2022, 29307, 14653, 967, ⟨117, 10⟩, "Academic Library"⟩]
    ∧ "Academic Library" ∉ metricTypeValues := by decide

/-- C7 (amended): every record the conversion scripts emit has a
metric_type among the seven enum values, because it goes through the
keyword mapper; the API's per-building endpoint instead sets metric_type
to the first present raw primary_use of the matching rows (or the
literal unknown), which need not be an enum value. -/
theorem claim_C7_metric_type :
    (∀ (raws : List RawRow), ∀ m ∈ ProcV1.outputRows raws,
        m.metric_type ∈ metricTypeValues)
    ∧ (∀ (raws : List RawRow), ∀ m ∈ ProcV2.outputRows raws,
        m.metric_type ∈ metricTypeValues)
    ∧ (∀ (rows : List DfRow) (name : String) (l : List BMetric),
        get_building_metrics rows name = Except.ok l →
        ∀ m ∈ l, m.metric_type
          = (firstMetaStr (fun r => r.primary_use)
              (rows.filter (fun r => containsCI r.building name))).getD "unknown") := by
  refine ⟨?_, ?_, ?_⟩
  · intro raws m hm
    simp only [ProcV1.outputRows] at hm
    rw [List.mem_map] at hm
    obtain ⟨kg, hkg, hm2⟩ := hm
    rw [← hm2]
    exact mapPU1_mem_enum kg.2.primary_use
  · intro raws m hm
    simp only [ProcV2.outputRows] at hm
    rw [List.mem_map] at hm
    obtain ⟨kg, hkg, hm2⟩ := hm
    rw [← hm2]
    exact mapPU2_mem_enum kg.2.primary_use
  · intro rows name l h m hm
    simp only [get_building_metrics] at h
    split at h
    · exact absurd h (by simp)
    · have hl := Except.ok.inj h
      rw [← hl] at hm
      rw [List.mem_map] at hm
      obtain ⟨y, hy, hm2⟩ := hm
      rw [← hm2]

theorem claim_C7_witness :
    (∀ m ∈ ProcV1.outputRows rawsC1, m.metric_type ∈ metricTypeValues)
    ∧ (∀ m ∈ get_building_metrics rowsC7 "West" |>.toOption |>.getD [],
        m.metric_type
          = (firstMetaStr (fun r => r.primary_use)
              (rowsC7.filter (fun r => containsCI r.building "West"))).getD "unknown") := by
  constructor
  · exact claim_C7_metric_type.1 rawsC1
  · intro m hm
    exact claim_C7_metric_type.2.2 rowsC7 "West"
      (get_building_metrics rowsC7 "West" |>.toOption |>.getD []) (by decide) m hm

/-- C8 counterexample: with building filter Hall+ the metrics endpoint
returns the West Hall record although West Hall does not contain the
substring Hall+: pandas str.contains matches the building parameter as
a regex, not as a literal substring, so the output is not the set of
records whose building contains the substring. -/
theorem claim_C8_counterexample :
    get_all_metrics_src rowsC8x (some "Hall+") none
      = some [⟨"West Hall", 2022, 29307, 14653, 967, ⟨117, 10⟩⟩]
    ∧ containsCI "West Hall" "Hall+" = false := by decide

/-- C8 (amended): the building parameter of the metrics endpoint is
matched by pandas str.contains as a regular expression; whenever the
supplied building filter is free of regex metacharacters it degenerates
to case-insensitive substring matching, and then the endpoint returns
exactly the records of the unfiltered aggregation whose building
contains the substring and whose year equals the given year, each
filter optional and an absent filter passing all records; a filter with
metacharacters is matched as a regex instead (see the counterexample). -/
theorem claim_C8_regex_literal (rows : List DfRow) (bf : Option String) (yf : Option Int)
    (hb : ∀ b, bf = some b → regexFree b = true) :
    get_all_metrics_src rows bf yf
      = some ((get_all_metrics rows none none).filter
          (fun m => bldOkB bf m.building && yearOkB yf m.year)) := by
  rw [gam_src_eq_literal rows bf yf hb, get_all_metrics_filter_split rows bf yf]

theorem claim_C8_witness :
    get_all_metrics_src rowsC8 (some "Hall") (some 2022)
      = some ((get_all_metrics rowsC8 none none).filter
          (fun m => bldOkB (some "Hall") m.building && yearOkB (some 2022) m.year)) :=
  claim_C8_regex_literal rowsC8 (some "Hall") (some 2022)
    (fun b hb => by
      have hb2 := Option.some.inj hb
      rw [← hb2]
      decide)

/-- C9 counterexample: in the group (B, 2022) of rawsC9 the first
reading in row order has a present primary_use Dining but absent energy;
the v2 aggregator stores Academic, the primary_use of the first
energy-eligible reading, not the claimed first present value Dining. -/
theorem claim_C9_counterexample :
    findEntry (ProcV2.aggregate rawsC9) ("B", "2022")
      = some ⟨293, "Academic", 0, 0⟩
    ∧ specFirstPresentPU (specGroupReadings rawsC9 ("B", "2022")) = some "Dining"
    ∧ ("Academic" : String) ≠ "Dining" := by decide

/-- C9 (amended): for each group the v2 aggregator produces, the total
energy is the sum of the converted energies of the group's eligible
readings (rows that pass the skip checks: non-blank key, present,
parseable and nonzero energy); primary_use is the first present,
non-placeholder value among those eligible readings in row order; and
gross_square_feet and occupancy take the first present value among the
eligible readings that parses to a nonzero integer, a zero parse leaving
the field open for later values. -/
theorem claim_C9_first_wins (raws : List RawRow) (k : String × String)
    (g : ProcV2.Group2)
    (h : findEntry (ProcV2.aggregate raws) k = some g) :
    g.energy_kwh = sumE (keyContribs ProcV2.conOf raws k)
    ∧ g.primary_use = firstPU (keyContribs ProcV2.conOf raws k)
    ∧ g.gross_square_feet = firstNZ (fun c => c.gsf) (keyContribs ProcV2.conOf raws k)
    ∧ g.occupancy = firstNZ (fun c => c.occ) (keyContribs ProcV2.conOf raws k) := by
  rw [show ProcV2.aggregate raws
      = dictFold ProcV2.conOf ProcV2.upd ⟨0, "", 0, 0⟩ raws from rfl] at h
  rw [findEntry_dictFold] at h
  cases hcs : keyContribs ProcV2.conOf raws k with
  | nil =>
      rw [hcs] at h
      simp at h
  | cons c t =>
      rw [hcs] at h
      have heq : (c :: t).foldl (applyCons ProcV2.upd ⟨0, "", 0, 0⟩) none
          = (c :: t).foldl (applyCons ProcV2.upd ⟨0, "", 0, 0⟩) (some ⟨0, "", 0, 0⟩) := by
        rw [List.foldl_cons, List.foldl_cons]
        rfl
      rw [heq, v2_fold_some (c :: t) ⟨0, "", 0, 0⟩] at h
      have hg := Option.some.inj h
      rw [← hg]
      refine ⟨by simp, by simp, by simp, by simp⟩

theorem claim_C9_witness :
    (⟨293, "Academic", 0, 0⟩ : ProcV2.Group2).energy_kwh
        = sumE (keyContribs ProcV2.conOf rawsC9 ("B", "2022"))
    ∧ (⟨293, "Academic", 0, 0⟩ : ProcV2.Group2).primary_use
        = firstPU (keyContribs ProcV2.conOf rawsC9 ("B", "2022"))
    ∧ (⟨293, "Academic", 0, 0⟩ : ProcV2.Group2).gross_square_feet
        = firstNZ (fun c => c.gsf) (keyContribs ProcV2.conOf rawsC9 ("B", "2022"))
    ∧ (⟨293, "Academic", 0, 0⟩ : ProcV2.Group2).occupancy
        = firstNZ (fun c => c.occ) (keyContribs ProcV2.conOf rawsC9 ("B", "2022")) :=
  claim_C9_first_wins rawsC9 ("B", "2022") ⟨293, "Academic", 0, 0⟩ (by decide)

/-- C10: in the campus-wide by-year aggregation, a year appears in the
output exactly when some row of the (optionally year-filtered) frame has
that year, even when none of its groups has positive energy; and an
output entry all of whose groups fail the positivity test carries zero
in all four metrics and total_buildings 0, so the zero-eligible-group
exclusion does not carry over to the by-year aggregation. -/
theorem claim_C10_campus_zero_years (rows : List DfRow) (yf : Option Int) (y : Int) :
    ((∃ t ∈ get_campus_wide_by_year rows yf, t.year = y)
        ↔ ∃ r ∈ yearFiltered rows yf, r.year = y)
    ∧ (∀ t ∈ get_campus_wide_by_year rows yf,
        (∀ k ∈ appKeys (yearFiltered rows yf), k.2 = t.year →
            (groupEnergy (yearFiltered rows yf) k).posB = false) →
        t = ⟨t.year, 0, 0, 0, ⟨0, 10⟩, 0⟩) := by
  simp only [get_campus_wide_by_year]
  constructor
  · constructor
    · rintro ⟨t, ht, hty⟩
      rw [List.mem_map] at ht
      obtain ⟨y0, hy0, ht2⟩ := ht
      have hy0y : y0 = y := by rw [← hty, ← ht2]
      have hy0m : y0 ∈ (yearFiltered rows yf).map (fun r => r.year) := by
        rw [← List.mem_dedup]
        exact (List.perm_insertionSort intLE _).mem_iff.mp hy0
      rw [List.mem_map] at hy0m
      obtain ⟨r, hr, hry⟩ := hy0m
      exact ⟨r, hr, by rw [hry, hy0y]⟩
    · rintro ⟨r, hr, hry⟩
      have hyin : y ∈ List.insertionSort intLE
          (((yearFiltered rows yf).map (fun r => r.year)).dedup) := by
        rw [(List.perm_insertionSort intLE _).mem_iff, List.mem_dedup, List.mem_map]
        exact ⟨r, hr, hry⟩
      exact ⟨_, List.mem_map_of_mem _ hyin, rfl⟩
  · intro t ht hzero
    rw [List.mem_map] at ht
    obtain ⟨y0, hy0, ht2⟩ := ht
    have hty : t.year = y0 := by rw [← ht2]
    have hpos : (((appKeys (yearFiltered rows yf)).filter (fun k => k.2 == y0)).filter
        (fun k => (groupEnergy (yearFiltered rows yf) k).posB)) = [] := by
      rw [List.filter_eq_nil_iff]
      intro k hk
      rw [List.mem_filter] at hk
      have hk2 : k.2 = y0 := beq_iff_eq.mp hk.2
      rw [hzero k hk.1 (hk2.trans hty.symm)]
      simp
    rw [← ht2]
    simp only [hpos]
    simp [YearTotal.mk.injEq, PyFloat.trunc, PyFloat.ofInt, PyFloat.round1, PyFloat.rhe]

theorem claim_C10_witness :
    (∃ t ∈ get_campus_wide_by_year rowsC10 none, t.year = 2021)
    ∧ get_campus_wide_by_year rowsC10 none
        = [⟨2021, 0, 0, 0, ⟨0, 10⟩, 0⟩, ⟨2022, 293, 146, 9, ⟨1, 10⟩, 1⟩] :=
  ⟨(claim_C10_campus_zero_years rowsC10 none 2021).1.mpr
      ⟨⟨"A", "Jan", 2021, some "", none, none, none⟩, by decide, rfl⟩,
   by decide⟩
